import Mathlib

/-!
A shallow embedding of the auto-ranged put meta-request state machine of
`source/s3_auto_ranged_put.c` (aws-c-s3).  Machine integers are modelled as
`Nat` (the counters are `uint32_t`/`size_t` and stay far below their bounds in
every statement below); error codes are a closed inductive; byte buffers are
`List Nat`; AWS strings are Lean `String`s, with `none` standing for a NULL
`aws_string *`.
-/

namespace S3Put

/-- The error codes that appear in `s3_auto_ranged_put.c`.  `success` is
`AWS_ERROR_SUCCESS` (0); `other n` stands for any passthrough code from the
HTTP/retry layers. -/
inductive ErrorCode where
  | success
  | invalidArgument
  | missingUploadId
  | listPartsParseFailed
  | resumedPartChecksumMismatch
  | resumeFailed
  | paused
  | other (n : Nat)
deriving DecidableEq, Repr

/-- A parsed JSON value as far as `aws_json_value_get_number` /
`aws_json_value_get_string` distinguish them: a number, a string, or anything
else (for which both getters fail). -/
inductive JsonVal where
  | num (n : Nat)
  | str (s : String)
  | other
deriving DecidableEq, Repr

/-- The four object members `s_parse_resume_info_from_token` looks up in the
resume token's JSON root; `none` models `aws_json_value_get_from_object`
returning NULL (member absent).  A token whose JSON does not parse at all
behaves exactly like `⟨none, none, none, none⟩`: every lookup on a NULL root
returns NULL. -/
structure TokenJson where
  type_node : Option JsonVal
  multipart_upload_id_node : Option JsonVal
  partition_size_node : Option JsonVal
  total_num_parts_node : Option JsonVal
deriving DecidableEq, Repr

/-- One part reported by a ListParts page, as `s_process_part_info` receives
it: the 1-based part number, the (still quoted) ETag, and the four per-
algorithm checksum cursors of `aws_s3_part_info`. -/
structure PartInfo where
  part_number : Nat
  e_tag : String
  checksumCRC32 : List Nat
  checksumCRC32C : List Nat
  checksumSHA1 : List Nat
  checksumSHA256 : List Nat
deriving DecidableEq, Repr

/-- `aws_s3_checksum_algorithm`. -/
inductive ChecksumAlgorithm where
  | none
  | crc32
  | crc32c
  | sha1
  | sha256
deriving DecidableEq, Repr

/-- `aws_strip_quotes` (s3_util): remove one surrounding pair of double
quotes when the value both starts and ends with one. -/
def aws_strip_quotes (s : String) : String :=
  let cs := s.toList
  if 2 ≤ cs.length ∧ cs.head? = some '"' ∧ cs.getLast? = some '"' then
    String.mk (cs.drop 1 |>.dropLast)
  else s

/-- Modelled from the spec: `aws_s3_meta_request_set_fail_synced` lives in
`s3_meta_request.c`, which is not among the repository files here.  §7 of the
spec: "Meta-request-terminal errors are captured once in
`synced_data.finish_result` ... and never overwritten." -/
def set_fail_synced (finish_result : Option ErrorCode) (e : ErrorCode) :
    Option ErrorCode :=
  match finish_result with
  | Option.none => some e
  | some e0 => some e0

/-- Modelled from the spec: `aws_s3_meta_request_set_success_synced` is also
in `s3_meta_request.c`; same capture-once rule, recording `success`. -/
def set_success_synced (finish_result : Option ErrorCode) : Option ErrorCode :=
  match finish_result with
  | Option.none => some ErrorCode.success
  | some e0 => some e0

/-- The mutable state of one `aws_s3_auto_ranged_put` (the fields of its
`synced_data`, its `threaded_update_data.next_part_number`, plus the fields
of the base meta-request that `s3_auto_ranged_put.c` reads or writes:
`part_size`, `content_length`, the checksum configuration, whether a progress
callback is registered, and `synced_data.finish_result`).  `etag_list` always
has length `total_num_parts` (the backing array is calloc'd with
`num_parts` slots); an unpopulated slot is `none`.  `checksums_list`
likewise; an empty list is a zero-length `aws_byte_buf`. -/
structure PutState where
  total_num_parts : Nat
  num_parts_sent : Nat
  num_parts_completed : Nat
  num_parts_successful : Nat
  num_parts_failed : Nat
  list_parts_sent : Bool
  list_parts_completed : Bool
  create_multipart_upload_sent : Bool
  create_multipart_upload_completed : Bool
  complete_multipart_upload_sent : Bool
  complete_multipart_upload_completed : Bool
  abort_multipart_upload_sent : Bool
  abort_multipart_upload_completed : Bool
  list_parts_error_code : ErrorCode
  create_multipart_upload_error_code : ErrorCode
  complete_multipart_upload_error_code : ErrorCode
  abort_multipart_upload_error_code : ErrorCode
  etag_list : List (Option String)
  checksums_list : List (List Nat)
  upload_id : Option String
  next_part_number : Nat
  part_size : Nat
  content_length : Nat
  checksum_algorithm : ChecksumAlgorithm
  has_progress_callback : Bool
  finish_result : Option ErrorCode
deriving DecidableEq, Repr

/-- The request tags of the auto-ranged put
(`AWS_S3_AUTO_RANGED_PUT_REQUEST_TAG_*`). -/
inductive RequestTag where
  | listParts
  | createMultipartUpload
  | part
  | completeMultipartUpload
  | abortMultipartUpload
deriving DecidableEq, Repr

/-- A request as `aws_s3_request_new` produces it in this file: tag, 1-based
part number (0 when not a part), and the two flags that matter here. -/
structure Request where
  tag : RequestTag
  part_number : Nat
  record_response_headers : Bool
  always_send : Bool
deriving DecidableEq, Repr

/-- The result of one `update` call: the returned `work_remaining` flag, the
request written to `*out_request` (NULL = `none`), and the mutated state. -/
structure UpdateResult where
  work_remaining : Bool
  out_request : Option Request
  state : PutState
deriving DecidableEq, Repr

/-- A progress report as passed to `meta_request->progress_callback`. -/
structure Progress where
  bytes_transferred : Nat
  content_length : Nat
deriving DecidableEq, Repr

/-- `aws_array_list_set_at` on the statically backed lists of this file: the
write succeeds only for an index inside the backing array (the C call returns
an error, which the callers ignore, beyond it; index `part_number - 1` with
`part_number = 0` wraps to `SIZE_MAX` and likewise fails). -/
def array_list_set_at {α : Type} (l : List α) (i : Nat) (v : α) (ok : Bool) :
    List α :=
  if ok ∧ i < l.length then l.set i v else l

/-- Which checksum cursor of an `aws_s3_part_info` the configured algorithm
selects in `s_process_part_info`; `none` (the algorithm `NONE`) selects no
cursor. -/
def checksum_of_info (algo : ChecksumAlgorithm) (info : PartInfo) :
    Option (List Nat) :=
  match algo with
  | .none => Option.none
  | .crc32 => some info.checksumCRC32
  | .crc32c => some info.checksumCRC32C
  | .sha1 => some info.checksumSHA1
  | .sha256 => some info.checksumSHA256

/-- `s_process_part_info`: strip the quotes off the reported ETag, copy the
matching checksum cursor (if an algorithm is configured) into
`checksums_list[part_number - 1]`, and store the ETag at
`etag_list[part_number - 1]`. -/
def s_process_part_info (algo : ChecksumAlgorithm) (info : PartInfo)
    (etags : List (Option String)) (checks : List (List Nat)) :
    List (Option String) × List (List Nat) :=
  let etag := aws_strip_quotes info.e_tag
  let inRange := decide (1 ≤ info.part_number)
  let checks' :=
    match checksum_of_info algo info with
    | Option.none => checks
    | some c => array_list_set_at checks (info.part_number - 1) c inRange
  let etags' := array_list_set_at etags (info.part_number - 1) (some etag) inRange
  (etags', checks')

/-- Process a whole ListParts page through `s_process_part_info`. -/
def process_page (algo : ChecksumAlgorithm) (page : List PartInfo)
    (etags : List (Option String)) (checks : List (List Nat)) :
    List (Option String) × List (List Nat) :=
  match page with
  | [] => (etags, checks)
  | info :: rest =>
    let (etags', checks') := s_process_part_info algo info etags checks
    process_page algo rest etags' checks'

/-- The number of populated (non-NULL) slots of the ETag array. -/
def countPopulated (etags : List (Option String)) : Nat :=
  (etags.filter Option.isSome).length

/-- The number of leading populated slots: how far the part-scanning loop of
`s_s3_auto_ranged_put_update` advances `next_part_number` past parts whose
ETag slot is already filled. -/
def countLeadingPopulated : List (Option String) → Nat
  | [] => 0
  | Option.none :: _ => 0
  | some _ :: rest => countLeadingPopulated rest + 1

/-- `s_s3_auto_ranged_put_update` (the vtable `update`).  The C control flow
is a chain of guarded `goto has_work_remaining` / `goto no_work_remaining`;
each arm here is one of those exits.  On the no-work exit the C calls
`aws_s3_meta_request_set_success_synced` and then (outside the lock)
`aws_s3_meta_request_finish`. -/
def s_s3_auto_ranged_put_update (s : PutState) (conservative : Bool) :
    UpdateResult :=
  if s.finish_result = Option.none then
    -- no finish result: normal forward progress
    if s.list_parts_sent = false then
      { work_remaining := true,
        out_request := some ⟨.listParts, 0, true, false⟩,
        state := { s with list_parts_sent := true } }
    else if s.list_parts_completed = false then
      { work_remaining := true, out_request := Option.none, state := s }
    else if s.create_multipart_upload_sent = false then
      { work_remaining := true,
        out_request := some ⟨.createMultipartUpload, 0, true, false⟩,
        state := { s with create_multipart_upload_sent := true } }
    else if s.create_multipart_upload_completed = false then
      { work_remaining := true, out_request := Option.none, state := s }
    else if s.num_parts_sent < s.total_num_parts then
      -- scan forward from next_part_number, skipping already-populated slots
      let npn := s.next_part_number +
        countLeadingPopulated (s.etag_list.drop (s.next_part_number - 1))
      if conservative = true ∧ s.num_parts_sent - s.num_parts_completed > 0 then
        { work_remaining := true, out_request := Option.none,
          state := { s with next_part_number := npn } }
      else
        { work_remaining := true,
          out_request := some ⟨.part, npn, true, false⟩,
          state := { s with next_part_number := npn + 1,
                            num_parts_sent := s.num_parts_sent + 1 } }
    else if s.num_parts_completed ≠ s.total_num_parts then
      { work_remaining := true, out_request := Option.none, state := s }
    else if s.complete_multipart_upload_sent = false then
      { work_remaining := true,
        out_request := some ⟨.completeMultipartUpload, 0, true, false⟩,
        state := { s with complete_multipart_upload_sent := true } }
    else if s.complete_multipart_upload_completed = false then
      { work_remaining := true, out_request := Option.none, state := s }
    else
      { work_remaining := false, out_request := Option.none,
        state := { s with finish_result := set_success_synced s.finish_result } }
  else
    -- a finish result is set: cancellation / abort logic
    if s.create_multipart_upload_sent = false then
      { work_remaining := false, out_request := Option.none,
        state := { s with finish_result := set_success_synced s.finish_result } }
    else if s.create_multipart_upload_completed = false then
      { work_remaining := true, out_request := Option.none, state := s }
    else if s.num_parts_completed < s.num_parts_sent then
      { work_remaining := true, out_request := Option.none, state := s }
    else if s.complete_multipart_upload_sent = true ∧
        s.complete_multipart_upload_completed = false then
      { work_remaining := true, out_request := Option.none, state := s }
    else if s.finish_result = some .paused ∨ s.finish_result = some .resumeFailed then
      { work_remaining := false, out_request := Option.none,
        state := { s with finish_result := set_success_synced s.finish_result } }
    else if s.complete_multipart_upload_completed = true ∧
        s.complete_multipart_upload_error_code = .success then
      { work_remaining := false, out_request := Option.none,
        state := { s with finish_result := set_success_synced s.finish_result } }
    else if s.abort_multipart_upload_sent = false then
      if s.upload_id = Option.none then
        { work_remaining := false, out_request := Option.none,
          state := { s with finish_result := set_success_synced s.finish_result } }
      else
        { work_remaining := true,
          out_request := some ⟨.abortMultipartUpload, 0, true, true⟩,
          state := { s with abort_multipart_upload_sent := true } }
    else if s.abort_multipart_upload_completed = false then
      { work_remaining := true, out_request := Option.none, state := s }
    else
      { work_remaining := false, out_request := Option.none,
        state := { s with finish_result := set_success_synced s.finish_result } }

/-- The `LIST_PARTS` arm of `s_s3_auto_ranged_put_request_finished`.
`response = none` models `aws_s3_paginated_operation_on_response` failing to
parse the body; `some (page, has_more)` a parsed page and its
`has_more_results` flag.  `has_more_results` starts `false`, so both the
error path and the parse-failure path leave `list_parts_completed = true`. -/
def s_finished_list_parts (s : PutState) (error : ErrorCode)
    (response : Option (List PartInfo × Bool)) : PutState :=
  if error = .success then
    match response with
    | Option.none =>
      let e := ErrorCode.listPartsParseFailed
      { s with list_parts_completed := true,
               create_multipart_upload_error_code := e,
               finish_result := set_fail_synced s.finish_result e }
    | some (page, has_more) =>
      let (etags', checks') :=
        process_page s.checksum_algorithm page s.etag_list s.checksums_list
      if has_more then
        { s with etag_list := etags', checksums_list := checks',
                 list_parts_completed := false,
                 create_multipart_upload_error_code := .success }
      else
        -- final page: sweep the ETag array, counting every populated slot
        -- as a part previously sent and completed
        { s with etag_list := etags', checksums_list := checks',
                 num_parts_sent := s.num_parts_sent + countPopulated etags',
                 num_parts_completed := s.num_parts_completed + countPopulated etags',
                 list_parts_completed := true,
                 create_multipart_upload_error_code := .success }
  else
    { s with list_parts_completed := true,
             create_multipart_upload_error_code := error,
             finish_result := set_fail_synced s.finish_result error }

/-- The `CREATE_MULTIPART_UPLOAD` arm of the finished hook.  `uploadIdParsed`
models `get_top_level_xml_tag_value` looking for `<UploadId>` in the response
body (`none` = not found).  The copying of the customer-SSE response headers
is not modelled: no claim mentions `needed_response_headers`. -/
def s_finished_create_mpu (s : PutState) (error : ErrorCode)
    (uploadIdParsed : Option String) : PutState :=
  if error = .success then
    match uploadIdParsed with
    | Option.none =>
      { s with create_multipart_upload_completed := true,
               list_parts_error_code := .missingUploadId,
               finish_result := set_fail_synced s.finish_result .missingUploadId }
    | some uid =>
      { s with upload_id := some uid,
               create_multipart_upload_completed := true,
               list_parts_error_code := .success }
  else
    { s with create_multipart_upload_completed := true,
             list_parts_error_code := error,
             finish_result := set_fail_synced s.finish_result error }

/-- The `PART` arm of the finished hook: on HTTP success the `ETag` response
header is looked up (`etagHeader`; `none` = header absent, which turns the
code into `AWS_ERROR_S3_MISSING_UPLOAD_ID`); the progress callback fires
exactly when the code is still success and a callback is registered; then the
counters are updated under the lock.  Returns the new state and the progress
report delivered (if any). -/
def s_finished_part (s : PutState) (pn : Nat) (error : ErrorCode)
    (etagHeader : Option String) : PutState × Option Progress :=
  let part_index := pn - 1
  let step1 : ErrorCode × Option String :=
    if error = .success then
      match etagHeader with
      | Option.none => (.missingUploadId, Option.none)
      | some e => (.success, some (aws_strip_quotes e))
    else (error, Option.none)
  let error' := step1.1
  let etag := step1.2
  let progress : Option Progress :=
    if error' = .success ∧ s.has_progress_callback = true then
      some ⟨s.part_size, s.content_length⟩
    else Option.none
  let s1 := { s with num_parts_completed := s.num_parts_completed + 1 }
  if error' = .success then
    ({ s1 with num_parts_successful := s1.num_parts_successful + 1,
               etag_list := array_list_set_at s1.etag_list part_index etag
                 (decide (1 ≤ pn)) },
     progress)
  else
    ({ s1 with num_parts_failed := s1.num_parts_failed + 1,
               finish_result := set_fail_synced s1.finish_result error' },
     progress)

/-- The `COMPLETE_MULTIPART_UPLOAD` arm of the finished hook (the synthesis
of the final response headers is not modelled; `error` is the code after the
user `headers_callback` possibly replaced it). -/
def s_finished_complete_mpu (s : PutState) (error : ErrorCode) : PutState :=
  { s with complete_multipart_upload_completed := true,
           complete_multipart_upload_error_code := error,
           finish_result := if error ≠ .success
             then set_fail_synced s.finish_result error else s.finish_result }

/-- The `ABORT_MULTIPART_UPLOAD` arm of the finished hook: record the code
and mark completion; no failure is propagated. -/
def s_finished_abort_mpu (s : PutState) (error : ErrorCode) : PutState :=
  { s with abort_multipart_upload_error_code := error,
           abort_multipart_upload_completed := true }

/-- `s_parse_resume_info_from_token`: no token means success with nothing to
resume; otherwise all four members must be present with the right JSON types,
the `type` must be the put literal, the partition size at least
`g_s3_min_upload_part_size` and the part count at most
`g_s3_max_num_upload_parts` (both passed in as `min_part_size` /
`max_num_parts`); any mismatch raises `AWS_ERROR_INVALID_ARGUMENT`. -/
def s_parse_resume_info_from_token (min_part_size max_num_parts : Nat) :
    Option TokenJson → Except ErrorCode (Option (String × Nat × Nat))
  | Option.none => .ok Option.none
  | some t =>
    match t.multipart_upload_id_node, t.partition_size_node,
        t.total_num_parts_node, t.type_node with
    | some (.str uid), some (.num psz), some (.num n), some (.str ty) =>
      if ty ≠ "AWS_S3_META_REQUEST_TYPE_PUT_OBJECT" then
        .error .invalidArgument
      else if psz < min_part_size then
        .error .invalidArgument
      else if n > max_num_parts then
        .error .invalidArgument
      else
        .ok (some (uid, psz, n))
    | _, _, _, _ => .error .invalidArgument

/-- The state fields shared by both initialisation paths of
`aws_s3_meta_request_auto_ranged_put_new` (the struct is calloc'd, so every
field starts zeroed; `next_part_number` is then set to 1). -/
def initBase (part_size content_length num_parts : Nat)
    (algo : ChecksumAlgorithm) (has_progress : Bool) : PutState :=
  { total_num_parts := num_parts
    num_parts_sent := 0
    num_parts_completed := 0
    num_parts_successful := 0
    num_parts_failed := 0
    list_parts_sent := false
    list_parts_completed := false
    create_multipart_upload_sent := false
    create_multipart_upload_completed := false
    complete_multipart_upload_sent := false
    complete_multipart_upload_completed := false
    abort_multipart_upload_sent := false
    abort_multipart_upload_completed := false
    list_parts_error_code := .success
    create_multipart_upload_error_code := .success
    complete_multipart_upload_error_code := .success
    abort_multipart_upload_error_code := .success
    etag_list := List.replicate num_parts Option.none
    checksums_list := List.replicate num_parts []
    upload_id := Option.none
    next_part_number := 1
    part_size := part_size
    content_length := content_length
    checksum_algorithm := algo
    has_progress_callback := has_progress
    finish_result := Option.none }

/-- `s_load_persistable_state`: recompute the part count implied by
(content_length, part_size) and require it to equal the token's
`total_num_parts`, else `AWS_ERROR_INVALID_ARGUMENT`; then zero the
sent/completed counters, mark create-multipart-upload sent and completed,
and adopt the upload id (the ListParts paginated operation and the copied
initial headers are not modelled). -/
def s_load_persistable_state (s : PutState) (content_length : Nat)
    (upload_id : String) (part_size total_num_parts : Nat) :
    Except ErrorCode PutState :=
  -- the C computes num_parts = content_length / part_size, plus one if the
  -- division leaves a remainder, into a local before the comparison
  if total_num_parts ≠ content_length / part_size +
      (if content_length % part_size > 0 then 1 else 0) then
    .error .invalidArgument
  else
    .ok { s with num_parts_sent := 0,
                 num_parts_completed := 0,
                 create_multipart_upload_sent := true,
                 create_multipart_upload_completed := true,
                 upload_id := some upload_id }

/-- `aws_s3_meta_request_auto_ranged_put_new`: parse the resume token (which
may override `part_size` and `num_parts`), then either load the persistable
state (resume) or mark list-parts as already done (fresh upload); the ETag
and checksum arrays are calloc'd with `num_parts` slots either way. -/
def aws_s3_meta_request_auto_ranged_put_new (min_part_size max_num_parts : Nat)
    (part_size : Nat) (content_length : Nat) (num_parts : Nat)
    (algo : ChecksumAlgorithm) (has_progress : Bool)
    (resume_token : Option TokenJson) : Except ErrorCode PutState :=
  match s_parse_resume_info_from_token min_part_size max_num_parts resume_token with
  | .error e => .error e
  | .ok Option.none =>
    -- fresh upload: no list-parts phase
    .ok { initBase part_size content_length num_parts algo has_progress with
            list_parts_sent := true, list_parts_completed := true }
  | .ok (some (uid, psz, n)) =>
    s_load_persistable_state (initBase psz content_length n algo has_progress)
      content_length uid psz n

/-- The resume token `s_s3_auto_ranged_put_pause` serialises (the JSON object
written by `aws_byte_buf_append_json_string`, modelled structurally: the
object has exactly these four members). -/
structure PutResumeToken where
  type_field : String
  multipart_upload_id : String
  partition_size : Nat
  total_num_parts : Nat
deriving DecidableEq, Repr

/-- `s_s3_auto_ranged_put_pause`: under the lock, serialise a token only when
`create_multipart_upload_completed` is set (the `.map` reflects that the C
reads `upload_id`, which must be non-NULL there), then mark the meta-request
failed with `AWS_ERROR_S3_PAUSED`.  Returns the token written to
`*out_resume_token` and the new state. -/
def s_s3_auto_ranged_put_pause (s : PutState) :
    Option PutResumeToken × PutState :=
  let token : Option PutResumeToken :=
    if s.create_multipart_upload_completed = true then
      s.upload_id.map (fun uid =>
        { type_field := "AWS_S3_META_REQUEST_TYPE_PUT_OBJECT"
          multipart_upload_id := uid
          partition_size := s.part_size
          total_num_parts := s.total_num_parts })
    else Option.none
  (token, { s with finish_result := set_fail_synced s.finish_result .paused })

/-- `s_compute_request_body_size`: every part reads `part_size` bytes except
the last, which reads `content_length mod part_size` when that remainder is
non-zero. -/
def s_compute_request_body_size (part_size total_num_parts content_length : Nat)
    (part_number : Nat) : Nat :=
  if part_number = total_num_parts then
    let content_remainder := content_length % part_size
    if content_remainder > 0 then content_remainder else part_size
  else
    part_size

/-- The loop body of `s_skip_parts_from_stream`, by the number of parts left
to skip.  `stream` is the unread remainder of the body stream (a read takes
the next `request_body_size` bytes); `hash` models `aws_checksum_compute` for
the configured algorithm (its possible internal failure, which raises
`RESUME_FAILED`, is not modelled); `checks` is `checksums_list`. -/
def skip_parts_loop (part_size total_num_parts content_length : Nat)
    (algo : ChecksumAlgorithm) (checks : List (List Nat))
    (hash : List Nat → List Nat) :
    Nat → List Nat → Nat → Except ErrorCode (List Nat)
  | 0, stream, _ => .ok stream
  | fuel + 1, stream, part_index =>
    let request_body_size :=
      s_compute_request_body_size part_size total_num_parts content_length
        (part_index + 1)
    let body := stream.take request_body_size
    let rest := stream.drop request_body_size
    if algo ≠ .none ∧ checks.getD part_index [] ≠ [] then
      if hash body = checks.getD part_index [] then
        skip_parts_loop part_size total_num_parts content_length algo checks
          hash fuel rest (part_index + 1)
      else
        .error .resumedPartChecksumMismatch
    else
      skip_parts_loop part_size total_num_parts content_length algo checks
        hash fuel rest (part_index + 1)

/-- `s_skip_parts_from_stream`: read and discard the bytes of parts
`num_parts_read_from_stream .. skip_until_part_number - 1` (0-based part
indices), verifying against the stored checksum whenever a checksum algorithm
is configured and the stored buffer is non-empty.  Returns the remaining
stream on success. -/
def s_skip_parts_from_stream (part_size total_num_parts content_length : Nat)
    (algo : ChecksumAlgorithm) (checks : List (List Nat))
    (hash : List Nat → List Nat) (stream : List Nat)
    (num_parts_read_from_stream skip_until_part_number : Nat) :
    Except ErrorCode (List Nat) :=
  skip_parts_loop part_size total_num_parts content_length algo checks hash
    (skip_until_part_number - num_parts_read_from_stream) stream
    num_parts_read_from_stream

/-- The events a meta-request's state reacts to: an `update` call by the
scheduler, or the finished hook for one of the five request tags, carrying
the data the hook reads off the finished request. -/
inductive Event where
  | update (conservative : Bool)
  | listPartsFinished (error : ErrorCode) (response : Option (List PartInfo × Bool))
  | createFinished (error : ErrorCode) (uploadIdParsed : Option String)
  | partFinished (pn : Nat) (error : ErrorCode) (etagHeader : Option String)
  | completeFinished (error : ErrorCode)
  | abortFinished (error : ErrorCode)
deriving DecidableEq, Repr

/-- Whether an event can actually occur in a state: `update` always can; a
finished hook only runs for a request that was emitted and has not finished
yet (for parts: at least one part is in flight, and every emitted part number
lies in `1..total_num_parts`, which `update` guarantees). -/
def validEvent (s : PutState) : Event → Bool
  | .update _ => true
  | .listPartsFinished _ _ =>
    s.list_parts_sent && !s.list_parts_completed
  | .createFinished _ _ =>
    s.create_multipart_upload_sent && !s.create_multipart_upload_completed
  | .partFinished pn _ _ =>
    decide (s.num_parts_completed < s.num_parts_sent) &&
      decide (1 ≤ pn) && decide (pn ≤ s.total_num_parts)
  | .completeFinished _ =>
    s.complete_multipart_upload_sent && !s.complete_multipart_upload_completed
  | .abortFinished _ =>
    s.abort_multipart_upload_sent && !s.abort_multipart_upload_completed

/-- The state after an event (outputs discarded). -/
def applyEvent (s : PutState) : Event → PutState
  | .update c => (s_s3_auto_ranged_put_update s c).state
  | .listPartsFinished e r => s_finished_list_parts s e r
  | .createFinished e u => s_finished_create_mpu s e u
  | .partFinished pn e t => (s_finished_part s pn e t).1
  | .completeFinished e => s_finished_complete_mpu s e
  | .abortFinished e => s_finished_abort_mpu s e

/-- The states reachable from `s0` by valid events. -/
inductive Reachable (s0 : PutState) : PutState → Prop where
  | refl : Reachable s0 s0
  | step {s : PutState} {e : Event} : Reachable s0 s → validEvent s e = true →
      Reachable s0 (applyEvent s e)

/-- A whole event sequence is valid from `s`. -/
def validTrace : PutState → List Event → Bool
  | _, [] => true
  | s, e :: es => validEvent s e && validTrace (applyEvent s e) es

/-- Whether this `update` call hands an `ABORT_MULTIPART_UPLOAD` request to
the scheduler. -/
def emitsAbort (s : PutState) (c : Bool) : Bool :=
  match (s_s3_auto_ranged_put_update s c).out_request with
  | some r => r.tag = .abortMultipartUpload
  | Option.none => false

/-- How many `ABORT_MULTIPART_UPLOAD` requests the `update` calls of an event
sequence emit. -/
def abortsEmitted : PutState → List Event → Nat
  | _, [] => 0
  | s, e :: es =>
    (match e with
     | .update c => if emitsAbort s c then 1 else 0
     | _ => 0) + abortsEmitted (applyEvent s e) es

/-- The four members of a resume token when they are all present with the
JSON types `s_parse_resume_info_from_token` demands: the `type` string, the
upload id string, the partition size and the part count. -/
def resumeTokenFields (t : TokenJson) : Option (String × String × Nat × Nat) :=
  match t.type_node, t.multipart_upload_id_node, t.partition_size_node,
      t.total_num_parts_node with
  | some (.str ty), some (.str uid), some (.num p), some (.num k) =>
    some (ty, uid, p, k)
  | _, _, _, _ => Option.none

/-- The counter invariant of the auto-ranged put, strengthened with what the
induction needs: the ETag array keeps its allocated length, and before the
list-parts phase completes no part has been sent, completed or classified. -/
def CoreInv (s : PutState) : Prop :=
  s.num_parts_completed ≤ s.num_parts_sent ∧
  s.num_parts_sent ≤ s.total_num_parts ∧
  s.num_parts_successful + s.num_parts_failed ≤ s.num_parts_completed ∧
  s.etag_list.length = s.total_num_parts ∧
  (s.list_parts_completed = false →
    s.num_parts_sent = 0 ∧ s.num_parts_completed = 0 ∧
    s.num_parts_successful = 0 ∧ s.num_parts_failed = 0)

/-- The extra invariant of a fresh (token-less) upload: the list-parts phase
is marked complete from the start and stays so, and every completed part was
classified as successful or failed. -/
def FreshInv (s : PutState) : Prop :=
  s.list_parts_completed = true ∧
  s.num_parts_successful + s.num_parts_failed = s.num_parts_completed

/-- How many bytes `s_skip_parts_from_stream` reads when it skips `k` parts
starting at 0-based part index `a`. -/
def bytesSkipped (part_size total_num_parts content_length a : Nat) :
    Nat → Nat
  | 0 => 0
  | k + 1 =>
    s_compute_request_body_size part_size total_num_parts content_length
        (a + 1) +
      bytesSkipped part_size total_num_parts content_length (a + 1) k

/-- Skipping part index `i` (with the stream positioned at the start of part
index `a`) cannot fail: either no checksum algorithm is configured, or no
checksum was stored for that part, or the recomputed checksum of the bytes
read for it matches the stored one. -/
def partOk (part_size total_num_parts content_length : Nat)
    (algo : ChecksumAlgorithm) (checks : List (List Nat))
    (hash : List Nat → List Nat) (stream : List Nat) (a i : Nat) : Prop :=
  algo = .none ∨ checks.getD i [] = [] ∨
  hash ((stream.drop
      (bytesSkipped part_size total_num_parts content_length a (i - a))).take
      (s_compute_request_body_size part_size total_num_parts content_length
        (i + 1))) = checks.getD i []

/-- A fresh three-part example meta-request (part size 8, content length 20,
no checksum algorithm, no progress callback, no resume token). -/
def fresh_example : PutState :=
  { initBase 8 20 3 .none false with
      list_parts_sent := true, list_parts_completed := true }

/-- A well-formed one-part resume token (part size 8, one part). -/
def resume_example_token : TokenJson :=
  { type_node := some (.str "AWS_S3_META_REQUEST_TYPE_PUT_OBJECT")
    multipart_upload_id_node := some (.str "uploadid1")
    partition_size_node := some (.num 8)
    total_num_parts_node := some (.num 1) }

/-- The state `aws_s3_meta_request_auto_ranged_put_new` builds for
`resume_example_token` with content length 8. -/
def resume_example_s0 : PutState :=
  { initBase 8 8 1 .crc32 false with
      num_parts_sent := 0, num_parts_completed := 0,
      create_multipart_upload_sent := true,
      create_multipart_upload_completed := true,
      upload_id := some "uploadid1" }

/-- One ListParts page reporting part 1 as already uploaded. -/
def resume_example_page : List PartInfo :=
  [{ part_number := 1, e_tag := "e1", checksumCRC32 := [],
     checksumCRC32C := [], checksumSHA1 := [], checksumSHA256 := [] }]

/-- `resume_example_s0` after its ListParts request was emitted and then
finished successfully with `resume_example_page` as the final page. -/
def resume_example_after_sweep : PutState :=
  applyEvent (applyEvent resume_example_s0 (.update false))
    (.listPartsFinished .success (some (resume_example_page, false)))

end S3Put

namespace S3Put

/-- Complete case analysis of `s_s3_auto_ranged_put_update`: one disjunct per
exit of the C control flow, each pairing the call's result with the path
conditions that select that exit. -/
theorem update_cases (s : PutState) (c : Bool) :
    (s_s3_auto_ranged_put_update s c =
        { work_remaining := true,
          out_request := some ⟨.listParts, 0, true, false⟩,
          state := { s with list_parts_sent := true } } ∧
      s.finish_result = Option.none ∧ s.list_parts_sent = false) ∨
    (s_s3_auto_ranged_put_update s c = { work_remaining := true, out_request := Option.none, state := s } ∧
      s.finish_result = Option.none ∧ s.list_parts_sent = true ∧
      s.list_parts_completed = false) ∨
    (s_s3_auto_ranged_put_update s c =
        { work_remaining := true,
          out_request := some ⟨.createMultipartUpload, 0, true, false⟩,
          state := { s with create_multipart_upload_sent := true } } ∧
      s.finish_result = Option.none ∧ s.list_parts_sent = true ∧
      s.list_parts_completed = true ∧ s.create_multipart_upload_sent = false) ∨
    (s_s3_auto_ranged_put_update s c = { work_remaining := true, out_request := Option.none, state := s } ∧
      s.finish_result = Option.none ∧ s.list_parts_sent = true ∧
      s.list_parts_completed = true ∧ s.create_multipart_upload_sent = true ∧
      s.create_multipart_upload_completed = false) ∨
    (s_s3_auto_ranged_put_update s c =
        { work_remaining := true, out_request := Option.none,
          state := { s with next_part_number := s.next_part_number +
            countLeadingPopulated (s.etag_list.drop (s.next_part_number - 1)) } } ∧
      s.finish_result = Option.none ∧ s.list_parts_sent = true ∧
      s.list_parts_completed = true ∧ s.create_multipart_upload_sent = true ∧
      s.create_multipart_upload_completed = true ∧
      s.num_parts_sent < s.total_num_parts ∧
      (c = true ∧ s.num_parts_sent - s.num_parts_completed > 0)) ∨
    (s_s3_auto_ranged_put_update s c =
        { work_remaining := true,
          out_request := some
            ⟨.part,
             s.next_part_number +
               countLeadingPopulated (s.etag_list.drop (s.next_part_number - 1)),
             true, false⟩,
          state := { s with
            next_part_number := s.next_part_number +
              countLeadingPopulated (s.etag_list.drop (s.next_part_number - 1)) + 1,
            num_parts_sent := s.num_parts_sent + 1 } } ∧
      s.finish_result = Option.none ∧ s.list_parts_sent = true ∧
      s.list_parts_completed = true ∧ s.create_multipart_upload_sent = true ∧
      s.create_multipart_upload_completed = true ∧
      s.num_parts_sent < s.total_num_parts ∧
      ¬(c = true ∧ s.num_parts_sent - s.num_parts_completed > 0)) ∨
    (s_s3_auto_ranged_put_update s c = { work_remaining := true, out_request := Option.none, state := s } ∧
      s.finish_result = Option.none ∧
      ¬s.num_parts_sent < s.total_num_parts ∧
      s.num_parts_completed ≠ s.total_num_parts) ∨
    (s_s3_auto_ranged_put_update s c =
        { work_remaining := true,
          out_request := some ⟨.completeMultipartUpload, 0, true, false⟩,
          state := { s with complete_multipart_upload_sent := true } } ∧
      s.finish_result = Option.none ∧
      ¬s.num_parts_sent < s.total_num_parts ∧
      s.num_parts_completed = s.total_num_parts ∧
      s.complete_multipart_upload_sent = false) ∨
    (s_s3_auto_ranged_put_update s c = { work_remaining := true, out_request := Option.none, state := s } ∧
      s.finish_result = Option.none ∧
      s.complete_multipart_upload_sent = true ∧
      s.complete_multipart_upload_completed = false) ∨
    (s_s3_auto_ranged_put_update s c =
        { work_remaining := false, out_request := Option.none,
          state := { s with finish_result := set_success_synced s.finish_result } } ∧
      s.finish_result = Option.none) ∨
    (s_s3_auto_ranged_put_update s c =
        { work_remaining := false, out_request := Option.none,
          state := { s with finish_result := set_success_synced s.finish_result } } ∧
      s.finish_result ≠ Option.none ∧ s.create_multipart_upload_sent = false) ∨
    (s_s3_auto_ranged_put_update s c = { work_remaining := true, out_request := Option.none, state := s } ∧
      s.finish_result ≠ Option.none ∧ s.create_multipart_upload_sent = true ∧
      s.create_multipart_upload_completed = false) ∨
    (s_s3_auto_ranged_put_update s c = { work_remaining := true, out_request := Option.none, state := s } ∧
      s.finish_result ≠ Option.none ∧ s.create_multipart_upload_sent = true ∧
      s.create_multipart_upload_completed = true ∧
      s.num_parts_completed < s.num_parts_sent) ∨
    (s_s3_auto_ranged_put_update s c = { work_remaining := true, out_request := Option.none, state := s } ∧
      s.finish_result ≠ Option.none ∧
      (s.complete_multipart_upload_sent = true ∧
        s.complete_multipart_upload_completed = false)) ∨
    (s_s3_auto_ranged_put_update s c =
        { work_remaining := false, out_request := Option.none,
          state := { s with finish_result := set_success_synced s.finish_result } } ∧
      (s.finish_result = some .paused ∨ s.finish_result = some .resumeFailed)) ∨
    (s_s3_auto_ranged_put_update s c =
        { work_remaining := false, out_request := Option.none,
          state := { s with finish_result := set_success_synced s.finish_result } } ∧
      s.finish_result ≠ Option.none ∧
      (s.complete_multipart_upload_completed = true ∧
        s.complete_multipart_upload_error_code = .success)) ∨
    (s_s3_auto_ranged_put_update s c =
        { work_remaining := false, out_request := Option.none,
          state := { s with finish_result := set_success_synced s.finish_result } } ∧
      s.finish_result ≠ Option.none ∧ s.abort_multipart_upload_sent = false ∧
      s.upload_id = Option.none) ∨
    (s_s3_auto_ranged_put_update s c =
        { work_remaining := true,
          out_request := some ⟨.abortMultipartUpload, 0, true, true⟩,
          state := { s with abort_multipart_upload_sent := true } } ∧
      s.finish_result ≠ Option.none ∧ s.create_multipart_upload_sent = true ∧
      s.create_multipart_upload_completed = true ∧
      ¬s.num_parts_completed < s.num_parts_sent ∧
      ¬(s.complete_multipart_upload_sent = true ∧
        s.complete_multipart_upload_completed = false) ∧
      ¬(s.finish_result = some .paused ∨ s.finish_result = some .resumeFailed) ∧
      ¬(s.complete_multipart_upload_completed = true ∧
        s.complete_multipart_upload_error_code = .success) ∧
      s.abort_multipart_upload_sent = false ∧ s.upload_id ≠ Option.none) ∨
    (s_s3_auto_ranged_put_update s c = { work_remaining := true, out_request := Option.none, state := s } ∧
      s.finish_result ≠ Option.none ∧ s.abort_multipart_upload_sent = true ∧
      s.abort_multipart_upload_completed = false) ∨
    (s_s3_auto_ranged_put_update s c =
        { work_remaining := false, out_request := Option.none,
          state := { s with finish_result := set_success_synced s.finish_result } } ∧
      s.finish_result ≠ Option.none ∧ s.abort_multipart_upload_sent = true ∧
      s.abort_multipart_upload_completed = true) := by
  by_cases h0 : s.finish_result = Option.none
  · by_cases h1 : s.list_parts_sent = false
    · exact Or.inl ⟨by unfold s_s3_auto_ranged_put_update; rw [if_pos h0, if_pos h1], h0, h1⟩
    · have h1' : s.list_parts_sent = true := by simpa using h1
      by_cases h2 : s.list_parts_completed = false
      · refine Or.inr (Or.inl ⟨?_, h0, h1', h2⟩)
        unfold s_s3_auto_ranged_put_update
        rw [if_pos h0, if_neg h1, if_pos h2]
      · have h2' : s.list_parts_completed = true := by simpa using h2
        by_cases h3 : s.create_multipart_upload_sent = false
        · refine Or.inr (Or.inr (Or.inl ⟨?_, h0, h1', h2', h3⟩))
          unfold s_s3_auto_ranged_put_update
          rw [if_pos h0, if_neg h1, if_neg h2, if_pos h3]
        · have h3' : s.create_multipart_upload_sent = true := by simpa using h3
          by_cases h4 : s.create_multipart_upload_completed = false
          · refine Or.inr (Or.inr (Or.inr (Or.inl ⟨?_, h0, h1', h2', h3', h4⟩)))
            unfold s_s3_auto_ranged_put_update
            rw [if_pos h0, if_neg h1, if_neg h2, if_neg h3, if_pos h4]
          · have h4' : s.create_multipart_upload_completed = true := by simpa using h4
            by_cases h5 : s.num_parts_sent < s.total_num_parts
            · by_cases h6 : c = true ∧ s.num_parts_sent - s.num_parts_completed > 0
              · refine Or.inr (Or.inr (Or.inr (Or.inr (Or.inl
                  ⟨?_, h0, h1', h2', h3', h4', h5, h6⟩))))
                unfold s_s3_auto_ranged_put_update
                rw [if_pos h0, if_neg h1, if_neg h2, if_neg h3, if_neg h4, if_pos h5, if_pos h6]
              · refine Or.inr (Or.inr (Or.inr (Or.inr (Or.inr (Or.inl
                  ⟨?_, h0, h1', h2', h3', h4', h5, h6⟩)))))
                unfold s_s3_auto_ranged_put_update
                rw [if_pos h0, if_neg h1, if_neg h2, if_neg h3, if_neg h4, if_pos h5, if_neg h6]
            · by_cases h7 : s.num_parts_completed ≠ s.total_num_parts
              · refine Or.inr (Or.inr (Or.inr (Or.inr (Or.inr (Or.inr (Or.inl
                  ⟨?_, h0, h5, h7⟩))))))
                unfold s_s3_auto_ranged_put_update
                rw [if_pos h0, if_neg h1, if_neg h2, if_neg h3, if_neg h4, if_neg h5, if_pos h7]
              · have h7' : s.num_parts_completed = s.total_num_parts := by simpa using h7
                by_cases h8 : s.complete_multipart_upload_sent = false
                · refine Or.inr (Or.inr (Or.inr (Or.inr (Or.inr (Or.inr (Or.inr (Or.inl
                    ⟨?_, h0, h5, h7', h8⟩)))))))
                  unfold s_s3_auto_ranged_put_update
                  rw [if_pos h0, if_neg h1, if_neg h2, if_neg h3, if_neg h4, if_neg h5, if_neg h7,
                    if_pos h8]
                · have h8' : s.complete_multipart_upload_sent = true := by simpa using h8
                  by_cases h9 : s.complete_multipart_upload_completed = false
                  · refine Or.inr (Or.inr (Or.inr (Or.inr (Or.inr (Or.inr (Or.inr (Or.inr (Or.inl
                      ⟨?_, h0, h8', h9⟩))))))))
                    unfold s_s3_auto_ranged_put_update
                    rw [if_pos h0, if_neg h1, if_neg h2, if_neg h3, if_neg h4, if_neg h5, if_neg h7,
                      if_neg h8, if_pos h9]
                  · refine Or.inr (Or.inr (Or.inr (Or.inr (Or.inr (Or.inr (Or.inr (Or.inr (Or.inr
                      (Or.inl ⟨?_, h0⟩)))))))))
                    unfold s_s3_auto_ranged_put_update
                    rw [if_pos h0, if_neg h1, if_neg h2, if_neg h3, if_neg h4, if_neg h5, if_neg h7,
                      if_neg h8, if_neg h9]
  · by_cases g1 : s.create_multipart_upload_sent = false
    · refine Or.inr (Or.inr (Or.inr (Or.inr (Or.inr (Or.inr (Or.inr (Or.inr (Or.inr (Or.inr
        (Or.inl ⟨?_, h0, g1⟩))))))))))
      unfold s_s3_auto_ranged_put_update
      rw [if_neg h0, if_pos g1]
    · have g1' : s.create_multipart_upload_sent = true := by simpa using g1
      by_cases g2 : s.create_multipart_upload_completed = false
      · refine Or.inr (Or.inr (Or.inr (Or.inr (Or.inr (Or.inr (Or.inr (Or.inr (Or.inr (Or.inr
          (Or.inr (Or.inl ⟨?_, h0, g1', g2⟩)))))))))))
        unfold s_s3_auto_ranged_put_update
        rw [if_neg h0, if_neg g1, if_pos g2]
      · have g2' : s.create_multipart_upload_completed = true := by simpa using g2
        by_cases g3 : s.num_parts_completed < s.num_parts_sent
        · refine Or.inr (Or.inr (Or.inr (Or.inr (Or.inr (Or.inr (Or.inr (Or.inr (Or.inr (Or.inr
            (Or.inr (Or.inr (Or.inl ⟨?_, h0, g1', g2', g3⟩))))))))))))
          unfold s_s3_auto_ranged_put_update
          rw [if_neg h0, if_neg g1, if_neg g2, if_pos g3]
        · by_cases g4 : s.complete_multipart_upload_sent = true ∧
              s.complete_multipart_upload_completed = false
          · refine Or.inr (Or.inr (Or.inr (Or.inr (Or.inr (Or.inr (Or.inr (Or.inr (Or.inr (Or.inr
              (Or.inr (Or.inr (Or.inr (Or.inl ⟨?_, h0, g4⟩)))))))))))))
            unfold s_s3_auto_ranged_put_update
            rw [if_neg h0, if_neg g1, if_neg g2, if_neg g3, if_pos g4]
          · by_cases g5 : s.finish_result = some .paused ∨ s.finish_result = some .resumeFailed
            · refine Or.inr (Or.inr (Or.inr (Or.inr (Or.inr (Or.inr (Or.inr (Or.inr (Or.inr (Or.inr
                (Or.inr (Or.inr (Or.inr (Or.inr (Or.inl ⟨?_, g5⟩))))))))))))))
              unfold s_s3_auto_ranged_put_update
              rw [if_neg h0, if_neg g1, if_neg g2, if_neg g3, if_neg g4, if_pos g5]
            · by_cases g6 : s.complete_multipart_upload_completed = true ∧
                  s.complete_multipart_upload_error_code = .success
              · refine Or.inr (Or.inr (Or.inr (Or.inr (Or.inr (Or.inr (Or.inr (Or.inr (Or.inr
                  (Or.inr (Or.inr (Or.inr (Or.inr (Or.inr (Or.inr (Or.inl ⟨?_, h0, g6⟩)))))))))))))))
                unfold s_s3_auto_ranged_put_update
                rw [if_neg h0, if_neg g1, if_neg g2, if_neg g3, if_neg g4, if_neg g5, if_pos g6]
              · by_cases g7 : s.abort_multipart_upload_sent = false
                · by_cases g8 : s.upload_id = Option.none
                  · refine Or.inr (Or.inr (Or.inr (Or.inr (Or.inr (Or.inr (Or.inr (Or.inr (Or.inr
                      (Or.inr (Or.inr (Or.inr (Or.inr (Or.inr (Or.inr (Or.inr (Or.inl
                      ⟨?_, h0, g7, g8⟩))))))))))))))))
                    unfold s_s3_auto_ranged_put_update
                    rw [if_neg h0, if_neg g1, if_neg g2, if_neg g3, if_neg g4, if_neg g5, if_neg g6,
                      if_pos g7, if_pos g8]
                  · refine Or.inr (Or.inr (Or.inr (Or.inr (Or.inr (Or.inr (Or.inr (Or.inr (Or.inr
                      (Or.inr (Or.inr (Or.inr (Or.inr (Or.inr (Or.inr (Or.inr (Or.inr (Or.inl
                      ⟨?_, h0, g1', g2', g3, g4, g5, g6, g7, g8⟩)))))))))))))))))
                    unfold s_s3_auto_ranged_put_update
                    rw [if_neg h0, if_neg g1, if_neg g2, if_neg g3, if_neg g4, if_neg g5, if_neg g6,
                      if_pos g7, if_neg g8]
                · have g7' : s.abort_multipart_upload_sent = true := by simpa using g7
                  by_cases g9 : s.abort_multipart_upload_completed = false
                  · refine Or.inr (Or.inr (Or.inr (Or.inr (Or.inr (Or.inr (Or.inr (Or.inr (Or.inr
                      (Or.inr (Or.inr (Or.inr (Or.inr (Or.inr (Or.inr (Or.inr (Or.inr (Or.inr
                      (Or.inl ⟨?_, h0, g7', g9⟩))))))))))))))))))
                    unfold s_s3_auto_ranged_put_update
                    rw [if_neg h0, if_neg g1, if_neg g2, if_neg g3, if_neg g4, if_neg g5, if_neg g6,
                      if_neg g7, if_pos g9]
                  · have g9' : s.abort_multipart_upload_completed = true := by simpa using g9
                    refine Or.inr (Or.inr (Or.inr (Or.inr (Or.inr (Or.inr (Or.inr (Or.inr (Or.inr
                      (Or.inr (Or.inr (Or.inr (Or.inr (Or.inr (Or.inr (Or.inr (Or.inr (Or.inr
                      (Or.inr ⟨?_, h0, g7', g9'⟩))))))))))))))))))
                    unfold s_s3_auto_ranged_put_update
                    rw [if_neg h0, if_neg g1, if_neg g2, if_neg g3, if_neg g4, if_neg g5, if_neg g6,
                      if_neg g7, if_neg g9]

/-- The possible state changes of one `update` call: either a pure flag/
book-keeping change, or (when a new part is emitted) `num_parts_sent`
grows by one under the guards of that branch. -/
theorem update_state_shape (s : PutState) (c : Bool) :
    (s_s3_auto_ranged_put_update s c).state = s ∨
    (s_s3_auto_ranged_put_update s c).state = { s with list_parts_sent := true } ∨
    (s_s3_auto_ranged_put_update s c).state =
      { s with create_multipart_upload_sent := true } ∨
    (s_s3_auto_ranged_put_update s c).state =
      { s with
          next_part_number := s.next_part_number +
            countLeadingPopulated (s.etag_list.drop (s.next_part_number - 1)) } ∨
    ((s_s3_auto_ranged_put_update s c).state =
        { s with
            next_part_number := s.next_part_number +
              countLeadingPopulated (s.etag_list.drop (s.next_part_number - 1)) + 1,
            num_parts_sent := s.num_parts_sent + 1 } ∧
      s.num_parts_sent < s.total_num_parts ∧ s.list_parts_completed = true) ∨
    (s_s3_auto_ranged_put_update s c).state =
      { s with complete_multipart_upload_sent := true } ∨
    ((s_s3_auto_ranged_put_update s c).state =
        { s with abort_multipart_upload_sent := true } ∧
      s.abort_multipart_upload_sent = false) ∨
    (s_s3_auto_ranged_put_update s c).state =
      { s with finish_result := set_success_synced s.finish_result } := by
  rcases update_cases s c with
      ⟨heq, -, -⟩ | ⟨heq, -⟩ | ⟨heq, -⟩ | ⟨heq, -⟩ | ⟨heq, -⟩ | ⟨heq, -, -, hb2, -, -, h5, -⟩ |
      ⟨heq, -⟩ | ⟨heq, -⟩ | ⟨heq, -⟩ | ⟨heq, -⟩ | ⟨heq, -⟩ | ⟨heq, -⟩ | ⟨heq, -⟩ | ⟨heq, -⟩ |
      ⟨heq, -⟩ | ⟨heq, -⟩ | ⟨heq, -⟩ | ⟨heq, -, -, -, -, -, -, -, g7, -⟩ | ⟨heq, -⟩ | ⟨heq, -⟩ <;>
    rw [heq]
  · exact Or.inr (Or.inl rfl)
  · exact Or.inl rfl
  · exact Or.inr (Or.inr (Or.inl rfl))
  · exact Or.inl rfl
  · exact Or.inr (Or.inr (Or.inr (Or.inl rfl)))
  · exact Or.inr (Or.inr (Or.inr (Or.inr (Or.inl ⟨rfl, h5, hb2⟩))))
  · exact Or.inl rfl
  · exact Or.inr (Or.inr (Or.inr (Or.inr (Or.inr (Or.inl rfl)))))
  · exact Or.inl rfl
  · exact Or.inr (Or.inr (Or.inr (Or.inr (Or.inr (Or.inr (Or.inr rfl))))))
  · exact Or.inr (Or.inr (Or.inr (Or.inr (Or.inr (Or.inr (Or.inr rfl))))))
  · exact Or.inl rfl
  · exact Or.inl rfl
  · exact Or.inl rfl
  · exact Or.inr (Or.inr (Or.inr (Or.inr (Or.inr (Or.inr (Or.inr rfl))))))
  · exact Or.inr (Or.inr (Or.inr (Or.inr (Or.inr (Or.inr (Or.inr rfl))))))
  · exact Or.inr (Or.inr (Or.inr (Or.inr (Or.inr (Or.inr (Or.inr rfl))))))
  · exact Or.inr (Or.inr (Or.inr (Or.inr (Or.inr (Or.inr (Or.inl ⟨rfl, g7⟩))))))
  · exact Or.inl rfl
  · exact Or.inr (Or.inr (Or.inr (Or.inr (Or.inr (Or.inr (Or.inr rfl))))))

/-- `array_list_set_at` never changes the length of the backing list. -/
theorem array_list_set_at_length {α : Type} (l : List α) (i : Nat) (v : α)
    (ok : Bool) : (array_list_set_at l i v ok).length = l.length := by
  unfold array_list_set_at
  split <;> simp

/-- `s_process_part_info` never changes the length of the ETag array. -/
theorem process_part_info_etags_length (algo : ChecksumAlgorithm)
    (info : PartInfo) (etags : List (Option String)) (checks : List (List Nat)) :
    (s_process_part_info algo info etags checks).1.length = etags.length := by
  unfold s_process_part_info
  exact array_list_set_at_length ..

/-- Processing a ListParts page never changes the length of the ETag array. -/
theorem process_page_etags_length (algo : ChecksumAlgorithm)
    (page : List PartInfo) :
    ∀ (etags : List (Option String)) (checks : List (List Nat)),
      (process_page algo page etags checks).1.length = etags.length := by
  induction page with
  | nil => intro etags checks; rfl
  | cons info rest ih =>
    intro etags checks
    unfold process_page
    rw [ih]
    exact process_part_info_etags_length ..

/-- No more slots can be populated than the array has. -/
theorem countPopulated_le_length (etags : List (Option String)) :
    countPopulated etags ≤ etags.length :=
  List.length_filter_le _ _

/-- `CoreInv` is preserved by every valid event. -/
theorem coreInv_applyEvent {s : PutState} {e : Event} (hI : CoreInv s)
    (hv : validEvent s e = true) : CoreInv (applyEvent s e) := by
  obtain ⟨i1, i2, i3, i4, i5⟩ := hI
  cases e with
  | update c =>
    show CoreInv (s_s3_auto_ranged_put_update s c).state
    rcases update_state_shape s c with h | h | h | h | ⟨h, h5, h2⟩ | h | ⟨h, -⟩ | h <;>
      rw [h] <;> unfold CoreInv <;> simp_all <;> omega
  | listPartsFinished error response =>
    show CoreInv (s_finished_list_parts s error response)
    have hlpc : s.list_parts_completed = false := by
      simp [validEvent] at hv; exact hv.2
    obtain ⟨z1, z2, z3, z4⟩ := i5 hlpc
    unfold s_finished_list_parts
    by_cases he : error = .success
    · subst he
      cases response with
      | none => unfold CoreInv; simp_all
      | some pr =>
        rcases pr with ⟨page, has_more⟩
        have hlen := process_page_etags_length s.checksum_algorithm page
          s.etag_list s.checksums_list
        have hcnt := countPopulated_le_length
          (process_page s.checksum_algorithm page s.etag_list s.checksums_list).1
        cases has_more <;> unfold CoreInv <;> simp_all <;> omega
    · unfold CoreInv; simp_all
  | createFinished error uploadIdParsed =>
    show CoreInv (s_finished_create_mpu s error uploadIdParsed)
    unfold s_finished_create_mpu
    by_cases he : error = .success
    · subst he
      cases uploadIdParsed <;> unfold CoreInv <;> simp_all
    · unfold CoreInv; simp_all
  | partFinished pn error etagHeader =>
    show CoreInv (s_finished_part s pn error etagHeader).1
    have hcs : s.num_parts_completed < s.num_parts_sent := by
      simp [validEvent] at hv; exact hv.1.1
    have hlpc : s.list_parts_completed = true := by
      by_contra hc
      have : s.list_parts_completed = false := by simpa using hc
      obtain ⟨z1, z2, -, -⟩ := i5 this
      omega
    unfold s_finished_part
    by_cases he : error = .success
    · subst he
      cases etagHeader with
      | none => unfold CoreInv; simp_all; omega
      | some etag =>
        have hlen := array_list_set_at_length s.etag_list (pn - 1)
          (some (aws_strip_quotes etag)) (decide (1 ≤ pn))
        unfold CoreInv
        simp_all
        omega
    · unfold CoreInv; simp_all; omega
  | completeFinished error =>
    show CoreInv (s_finished_complete_mpu s error)
    unfold s_finished_complete_mpu CoreInv
    simp_all
  | abortFinished error =>
    show CoreInv (s_finished_abort_mpu s error)
    unfold s_finished_abort_mpu CoreInv
    simp_all

/-- What a successful `s_load_persistable_state` returns: the input state
with the counters zeroed, create-multipart-upload marked sent and completed,
and the upload id adopted. -/
theorem load_persistable_state_inv (s : PutState) (cl : Nat) (uid : String)
    (psz k : Nat) (s0 : PutState)
    (h : s_load_persistable_state s cl uid psz k = .ok s0) :
    s0 = { s with
      num_parts_sent := 0, num_parts_completed := 0,
      create_multipart_upload_sent := true,
      create_multipart_upload_completed := true,
      upload_id := some uid } := by
  unfold s_load_persistable_state at h
  split at h <;> split at h <;>
    first
      | exact Except.noConfusion h
      | (injection h with h; exact h.symm)

/-- What a successful construction with a resume token returns: the token's
fields parse, and the state is the resumed initial state. -/
theorem new_resume_inv
    (min_part_size max_num_parts part_size content_length num_parts : Nat)
    (algo : ChecksumAlgorithm) (has_progress : Bool) (t : TokenJson)
    (s0 : PutState)
    (hnew : aws_s3_meta_request_auto_ranged_put_new min_part_size max_num_parts
      part_size content_length num_parts algo has_progress (some t) = .ok s0) :
    ∃ uid psz k, s0 = { initBase psz content_length k algo has_progress with
      num_parts_sent := 0, num_parts_completed := 0,
      create_multipart_upload_sent := true,
      create_multipart_upload_completed := true,
      upload_id := some uid } := by
  unfold aws_s3_meta_request_auto_ranged_put_new at hnew
  rcases hpr : s_parse_resume_info_from_token min_part_size max_num_parts
      (some t) with e | info
  · rw [hpr] at hnew; exact absurd hnew (by simp)
  · rw [hpr] at hnew
    rcases info with _ | ⟨uid, psz, k⟩
    · refine absurd hpr ?_
      unfold s_parse_resume_info_from_token
      (repeat' split) <;> simp_all
    · simp at hnew
      exact ⟨uid, psz, k, load_persistable_state_inv _ _ _ _ _ _ hnew⟩

/-- What a fresh (token-less) construction returns. -/
theorem new_fresh_inv
    (min_part_size max_num_parts part_size content_length num_parts : Nat)
    (algo : ChecksumAlgorithm) (has_progress : Bool) (s0 : PutState)
    (hnew : aws_s3_meta_request_auto_ranged_put_new min_part_size max_num_parts
      part_size content_length num_parts algo has_progress Option.none = .ok s0) :
    s0 = { initBase part_size content_length num_parts algo has_progress with
      list_parts_sent := true, list_parts_completed := true } := by
  unfold aws_s3_meta_request_auto_ranged_put_new
    s_parse_resume_info_from_token at hnew
  simp at hnew
  exact hnew.symm

/-- Both initialisation paths of the constructor establish `CoreInv`. -/
theorem coreInv_init
    (min_part_size max_num_parts part_size content_length num_parts : Nat)
    (algo : ChecksumAlgorithm) (has_progress : Bool)
    (resume_token : Option TokenJson) (s0 : PutState)
    (hnew : aws_s3_meta_request_auto_ranged_put_new min_part_size max_num_parts
      part_size content_length num_parts algo has_progress resume_token = .ok s0) :
    CoreInv s0 := by
  rcases resume_token with _ | t
  · rw [new_fresh_inv _ _ _ _ _ _ _ _ hnew]
    unfold CoreInv
    simp [initBase]
  · obtain ⟨uid, psz, k, h⟩ := new_resume_inv _ _ _ _ _ _ _ _ _ hnew
    rw [h]
    unfold CoreInv
    simp [initBase]

/-- Every state reachable from a constructed meta-request satisfies
`CoreInv`. -/
theorem coreInv_reachable
    (min_part_size max_num_parts part_size content_length num_parts : Nat)
    (algo : ChecksumAlgorithm) (has_progress : Bool)
    (resume_token : Option TokenJson) (s0 s : PutState)
    (hnew : aws_s3_meta_request_auto_ranged_put_new min_part_size max_num_parts
      part_size content_length num_parts algo has_progress resume_token = .ok s0)
    (hr : Reachable s0 s) : CoreInv s := by
  induction hr with
  | refl => exact coreInv_init _ _ _ _ _ _ _ _ _ hnew
  | step hr hv ih => exact coreInv_applyEvent ih hv

/-- `FreshInv` is preserved by every valid event (a list-parts finished hook
can never fire because `list_parts_completed` never returns to `false`). -/
theorem freshInv_applyEvent {s : PutState} {e : Event} (hI : FreshInv s)
    (hv : validEvent s e = true) : FreshInv (applyEvent s e) := by
  obtain ⟨i1, i2⟩ := hI
  cases e with
  | update c =>
    show FreshInv (s_s3_auto_ranged_put_update s c).state
    rcases update_state_shape s c with h | h | h | h | ⟨h, -, -⟩ | h | ⟨h, -⟩ | h <;>
      rw [h] <;> exact ⟨i1, i2⟩
  | listPartsFinished error response =>
    simp [validEvent, i1] at hv
  | createFinished error uploadIdParsed =>
    show FreshInv (s_finished_create_mpu s error uploadIdParsed)
    unfold s_finished_create_mpu
    by_cases he : error = .success
    · subst he
      cases uploadIdParsed <;> exact ⟨i1, i2⟩
    · simp [he]; exact ⟨i1, i2⟩
  | partFinished pn error etagHeader =>
    show FreshInv (s_finished_part s pn error etagHeader).1
    unfold s_finished_part
    by_cases he : error = .success
    · subst he
      cases etagHeader with
      | none => unfold FreshInv; simp_all; omega
      | some etag => unfold FreshInv; simp_all; omega
    · unfold FreshInv; simp_all; omega
  | completeFinished error =>
    exact ⟨i1, i2⟩
  | abortFinished error =>
    exact ⟨i1, i2⟩

/-- A fresh construction establishes `FreshInv`. -/
theorem freshInv_init
    (min_part_size max_num_parts part_size content_length num_parts : Nat)
    (algo : ChecksumAlgorithm) (has_progress : Bool) (s0 : PutState)
    (hnew : aws_s3_meta_request_auto_ranged_put_new min_part_size max_num_parts
      part_size content_length num_parts algo has_progress Option.none = .ok s0) :
    FreshInv s0 := by
  unfold aws_s3_meta_request_auto_ranged_put_new
    s_parse_resume_info_from_token at hnew
  simp at hnew
  unfold FreshInv
  rw [← hnew]
  simp [initBase]

/-- Every state reachable from a fresh construction satisfies `FreshInv`. -/
theorem freshInv_reachable
    (min_part_size max_num_parts part_size content_length num_parts : Nat)
    (algo : ChecksumAlgorithm) (has_progress : Bool) (s0 s : PutState)
    (hnew : aws_s3_meta_request_auto_ranged_put_new min_part_size max_num_parts
      part_size content_length num_parts algo has_progress Option.none = .ok s0)
    (hr : Reachable s0 s) : FreshInv s := by
  induction hr with
  | refl => exact freshInv_init _ _ _ _ _ _ _ _ hnew
  | step hr hv ih => exact freshInv_applyEvent ih hv


/-- C7 -/
theorem C7_request_body_size (part_size total_num_parts content_length pn : Nat)
    (h1 : 1 ≤ pn) (h2 : pn ≤ total_num_parts) :
    (pn ≠ total_num_parts →
      s_compute_request_body_size part_size total_num_parts content_length pn = part_size) ∧
    (pn = total_num_parts →
      (content_length % part_size ≠ 0 →
        s_compute_request_body_size part_size total_num_parts content_length pn =
          content_length % part_size) ∧
      (content_length % part_size = 0 →
        s_compute_request_body_size part_size total_num_parts content_length pn = part_size)) := by
  unfold s_compute_request_body_size
  constructor
  · intro h; simp [h]
  · intro h
    constructor
    · intro hr; simp [h]; omega
    · intro hr; simp [h, hr]

theorem C7_witness : s_compute_request_body_size 8 3 20 3 = 20 % 8 :=
  ((C7_request_body_size 8 3 20 3 (by decide) (by decide)).2 rfl).1 (by decide)

/-- C9 -/
theorem C9_part_missing_etag (s : PutState) (pn : Nat) :
    (s_finished_part s pn .success Option.none).1.num_parts_failed = s.num_parts_failed + 1 ∧
    (s_finished_part s pn .success Option.none).1.num_parts_successful = s.num_parts_successful ∧
    (s_finished_part s pn .success Option.none).1.num_parts_completed = s.num_parts_completed + 1 ∧
    (s_finished_part s pn .success Option.none).1.finish_result =
      set_fail_synced s.finish_result .missingUploadId ∧
    (s.finish_result = Option.none →
      (s_finished_part s pn .success Option.none).1.finish_result = some .missingUploadId) ∧
    (s_finished_part s pn .success Option.none).1.etag_list = s.etag_list ∧
    (s_finished_part s pn .success Option.none).2 = Option.none := by
  simp [s_finished_part]
  intro h
  simp [h, set_fail_synced]

/-- C10 -/
theorem C10_progress_full_part_size (s : PutState) (pn : Nat) (etagHeader : String)
    (h : s.has_progress_callback = true) :
    (s_finished_part s pn .success (some etagHeader)).2 =
      some { bytes_transferred := s.part_size, content_length := s.content_length } := by
  simp [s_finished_part, h]

theorem C10_witness :
    (s_finished_part (initBase 8 20 3 .none true) 3 .success (some "e")).2 =
      some { bytes_transferred := 8, content_length := 20 } :=
  C10_progress_full_part_size (initBase 8 20 3 .none true) 3 "e" rfl

/-- C4 -/
theorem C4_pause (s : PutState) (uid : String) (h : s.upload_id = some uid) :
    (s.create_multipart_upload_completed = true →
      (s_s3_auto_ranged_put_pause s).1 =
        some { type_field := "AWS_S3_META_REQUEST_TYPE_PUT_OBJECT",
               multipart_upload_id := uid,
               partition_size := s.part_size,
               total_num_parts := s.total_num_parts }) ∧
    (s.create_multipart_upload_completed = false →
      (s_s3_auto_ranged_put_pause s).1 = Option.none) ∧
    (s_s3_auto_ranged_put_pause s).2.finish_result =
      set_fail_synced s.finish_result .paused ∧
    (s.finish_result = Option.none →
      (s_s3_auto_ranged_put_pause s).2.finish_result = some .paused) := by
  refine ⟨fun hc => ?_, fun hc => ?_, ?_, fun hf => ?_⟩
  · simp [s_s3_auto_ranged_put_pause, hc, h]
  · simp [s_s3_auto_ranged_put_pause, hc]
  · simp [s_s3_auto_ranged_put_pause]
  · simp [s_s3_auto_ranged_put_pause, hf, set_fail_synced]

theorem C4_witness :
    let s : PutState := { initBase 8 20 3 .none false with
      upload_id := some "UID", create_multipart_upload_completed := true }
    (s.create_multipart_upload_completed = true →
      (s_s3_auto_ranged_put_pause s).1 =
        some { type_field := "AWS_S3_META_REQUEST_TYPE_PUT_OBJECT",
               multipart_upload_id := "UID",
               partition_size := s.part_size,
               total_num_parts := s.total_num_parts }) ∧
    (s.create_multipart_upload_completed = false →
      (s_s3_auto_ranged_put_pause s).1 = Option.none) ∧
    (s_s3_auto_ranged_put_pause s).2.finish_result =
      set_fail_synced s.finish_result .paused ∧
    (s.finish_result = Option.none →
      (s_s3_auto_ranged_put_pause s).2.finish_result = some .paused) :=
  C4_pause _ "UID" rfl

/-- C8 -/
theorem C8_crosswired_error_codes (s : PutState) (error : ErrorCode)
    (response : Option (List PartInfo × Bool)) (uploadIdParsed : Option String) :
    ((s_finished_list_parts s error response).create_multipart_upload_error_code =
        (if error = .success then
          (match response with
           | Option.none => ErrorCode.listPartsParseFailed
           | some _ => ErrorCode.success)
         else error) ∧
     (s_finished_list_parts s error response).list_parts_error_code = s.list_parts_error_code ∧
     (∀ e : ErrorCode,
        (s_finished_list_parts s error response).create_multipart_upload_error_code = e →
        e ≠ .success →
        (s_finished_list_parts s error response).finish_result =
          set_fail_synced s.finish_result e ∧
        (s.finish_result = Option.none →
          (s_finished_list_parts s error response).finish_result = some e))) ∧
    ((s_finished_create_mpu s error uploadIdParsed).list_parts_error_code =
        (if error = .success then
          (match uploadIdParsed with
           | Option.none => ErrorCode.missingUploadId
           | some _ => ErrorCode.success)
         else error) ∧
     (s_finished_create_mpu s error uploadIdParsed).create_multipart_upload_error_code =
       s.create_multipart_upload_error_code ∧
     (∀ e : ErrorCode,
        (s_finished_create_mpu s error uploadIdParsed).list_parts_error_code = e →
        e ≠ .success →
        (s_finished_create_mpu s error uploadIdParsed).finish_result =
          set_fail_synced s.finish_result e ∧
        (s.finish_result = Option.none →
          (s_finished_create_mpu s error uploadIdParsed).finish_result = some e))) := by
  constructor
  · unfold s_finished_list_parts
    by_cases he : error = .success
    · subst he
      cases response with
      | none => simp [set_fail_synced]; intro h; simp [h]
      | some pr =>
        rcases pr with ⟨page, has_more⟩
        cases has_more <;> simp
    · simp [he]
      intro h; simp [set_fail_synced, h]
  · unfold s_finished_create_mpu
    by_cases he : error = .success
    · subst he
      cases uploadIdParsed with
      | none => simp [set_fail_synced]; intro h; simp [h]
      | some uid => simp
    · simp [he]
      intro h; simp [set_fail_synced, h]

/-- For a positive divisor, the ceiling division `⌈a / b⌉` equals the part
count `s_load_persistable_state` computes: `a / b`, plus one when the
division leaves a remainder. -/
theorem ceilDiv_eq_div_add_ite (a b : Nat) (h : 0 < b) :
    a ⌈/⌉ b = a / b + (if a % b > 0 then 1 else 0) := by
  rw [Nat.ceilDiv_eq_add_pred_div]
  have hd := Nat.div_add_mod a b
  obtain ⟨q, hq⟩ : ∃ q, b * (a / b) = q := ⟨_, rfl⟩
  rw [hq] at hd
  rcases Nat.eq_zero_or_pos (a % b) with h0 | h0
  · have h1 : a + b - 1 = (b - 1) + b * (a / b) := by rw [hq]; omega
    rw [h1, Nat.add_mul_div_left _ _ h, Nat.div_eq_of_lt (by omega)]
    simp [h0]
  · have h2 : a % b < b := Nat.mod_lt _ h
    have h1 : a + b - 1 = (a % b - 1 + b) + b * (a / b) := by rw [hq]; omega
    have h3 : (a % b - 1 + b) / b = (a % b - 1) / b + 1 := Nat.add_div_right _ h
    have h4 : (a % b - 1) / b = 0 := Nat.div_eq_of_lt (by omega)
    rw [h1, Nat.add_mul_div_left _ _ h, h3, h4, if_pos h0]
    omega

/-- C2 -/
theorem C2_resume_token_validation
    (min_part_size max_num_parts part_size content_length num_parts : Nat)
    (algo : ChecksumAlgorithm) (has_progress : Bool) (t : TokenJson)
    (hmin : 0 < min_part_size) :
    (resumeTokenFields t = Option.none →
      aws_s3_meta_request_auto_ranged_put_new min_part_size max_num_parts
        part_size content_length num_parts algo has_progress (some t) =
        .error .invalidArgument) ∧
    (∀ ty uid p k, resumeTokenFields t = some (ty, uid, p, k) →
      ((aws_s3_meta_request_auto_ranged_put_new min_part_size max_num_parts
          part_size content_length num_parts algo has_progress (some t) =
          .error .invalidArgument) ↔
        ¬(ty = "AWS_S3_META_REQUEST_TYPE_PUT_OBJECT" ∧ min_part_size ≤ p ∧
          k ≤ max_num_parts ∧ content_length ⌈/⌉ p = k)) ∧
      ((ty = "AWS_S3_META_REQUEST_TYPE_PUT_OBJECT" ∧ min_part_size ≤ p ∧
          k ≤ max_num_parts ∧ content_length ⌈/⌉ p = k) →
        ∃ s0, aws_s3_meta_request_auto_ranged_put_new min_part_size max_num_parts
            part_size content_length num_parts algo has_progress (some t) =
            .ok s0 ∧ s0.upload_id = some uid ∧ s0.part_size = p ∧
          s0.total_num_parts = k)) := by
  constructor
  · intro hf
    rcases t with ⟨tn, un, pn, nn⟩
    unfold aws_s3_meta_request_auto_ranged_put_new s_parse_resume_info_from_token
    rcases tn with _ | (_ | _ | _) <;> rcases un with _ | (_ | _ | _) <;>
      rcases pn with _ | (_ | _ | _) <;> rcases nn with _ | (_ | _ | _) <;>
      simp_all [resumeTokenFields]
  · intro ty uid p k hf
    rcases t with ⟨tn, un, pn, nn⟩
    have hfe : tn = some (.str ty) ∧ un = some (.str uid) ∧
        pn = some (.num p) ∧ nn = some (.num k) := by
      rcases tn with _ | (_ | _ | _) <;> rcases un with _ | (_ | _ | _) <;>
        rcases pn with _ | (_ | _ | _) <;> rcases nn with _ | (_ | _ | _) <;>
        simp_all [resumeTokenFields]
    obtain ⟨h1, h2, h3, h4⟩ := hfe
    subst h1; subst h2; subst h3; subst h4
    unfold aws_s3_meta_request_auto_ranged_put_new s_parse_resume_info_from_token
    by_cases hty : ty = "AWS_S3_META_REQUEST_TYPE_PUT_OBJECT"
    · subst hty
      by_cases hplt : p < min_part_size
      · simp [hplt]
      · by_cases hkgt : k > max_num_parts
        · simp [hplt, hkgt]
        · have hp : 0 < p := by omega
          have hc := ceilDiv_eq_div_add_ite content_length p hp
          simp only [gt_iff_lt] at hc ⊢
          simp [hplt, hkgt, s_load_persistable_state]
          by_cases hck : k = content_length / p +
              (if 0 < content_length % p then 1 else 0)
          · simp [hck]
            constructor
            · omega
            · intro _ _ _
              simp [initBase]
          · simp [hck]
            intro h5 h6
            omega
    · simp [hty]



end S3Put

namespace S3Put

/-- `s_finished_list_parts` never touches the abort-sent flag. -/
theorem finished_list_parts_abort_sent (s : PutState) (error : ErrorCode)
    (response : Option (List PartInfo × Bool)) :
    (s_finished_list_parts s error response).abort_multipart_upload_sent =
      s.abort_multipart_upload_sent := by
  unfold s_finished_list_parts
  by_cases he : error = .success
  · subst he
    cases response with
    | none => simp
    | some pr => rcases pr with ⟨page, hm⟩; cases hm <;> simp
  · simp [he]

/-- `s_finished_create_mpu` never touches the abort-sent flag. -/
theorem finished_create_mpu_abort_sent (s : PutState) (error : ErrorCode)
    (uploadIdParsed : Option String) :
    (s_finished_create_mpu s error uploadIdParsed).abort_multipart_upload_sent =
      s.abort_multipart_upload_sent := by
  unfold s_finished_create_mpu
  by_cases he : error = .success
  · subst he
    cases uploadIdParsed <;> simp
  · simp [he]

/-- `s_finished_part` never touches the abort-sent flag. -/
theorem finished_part_abort_sent (s : PutState) (pn : Nat) (error : ErrorCode)
    (etagHeader : Option String) :
    (s_finished_part s pn error etagHeader).1.abort_multipart_upload_sent =
      s.abort_multipart_upload_sent := by
  unfold s_finished_part
  by_cases he : error = .success
  · subst he
    cases etagHeader <;> simp
  · simp [he]

/-- No event ever clears a set abort-sent flag. -/
theorem abort_sent_mono {s : PutState} (e : Event)
    (h : s.abort_multipart_upload_sent = true) :
    (applyEvent s e).abort_multipart_upload_sent = true := by
  cases e with
  | update c =>
    show (s_s3_auto_ranged_put_update s c).state.abort_multipart_upload_sent = true
    rcases update_state_shape s c with hq | hq | hq | hq | ⟨hq, -, -⟩ | hq | ⟨hq, -⟩ | hq <;>
      rw [hq] <;> simp [h]
  | listPartsFinished error response =>
    show (s_finished_list_parts s error response).abort_multipart_upload_sent = true
    rw [finished_list_parts_abort_sent]; exact h
  | createFinished error uploadIdParsed =>
    show (s_finished_create_mpu s error uploadIdParsed).abort_multipart_upload_sent = true
    rw [finished_create_mpu_abort_sent]; exact h
  | partFinished pn error etagHeader =>
    show (s_finished_part s pn error etagHeader).1.abort_multipart_upload_sent = true
    rw [finished_part_abort_sent]; exact h
  | completeFinished error =>
    show (s_finished_complete_mpu s error).abort_multipart_upload_sent = true
    unfold s_finished_complete_mpu; exact h
  | abortFinished error =>
    show (s_finished_abort_mpu s error).abort_multipart_upload_sent = true
    unfold s_finished_abort_mpu; exact h

/-- `update` hands out an abort request only when the abort-sent flag is
still clear, and then sets it; once the flag is set, no call emits one. -/
theorem emitsAbort_spec (s : PutState) (c : Bool) :
    (emitsAbort s c = true →
      s.abort_multipart_upload_sent = false ∧
      (s_s3_auto_ranged_put_update s c).state.abort_multipart_upload_sent = true) ∧
    (s.abort_multipart_upload_sent = true → emitsAbort s c = false) := by
  unfold emitsAbort
  rcases update_cases s c with
      ⟨heq, -⟩ | ⟨heq, -⟩ | ⟨heq, -⟩ | ⟨heq, -⟩ | ⟨heq, -⟩ | ⟨heq, -⟩ |
      ⟨heq, -⟩ | ⟨heq, -⟩ | ⟨heq, -⟩ | ⟨heq, -⟩ | ⟨heq, -⟩ | ⟨heq, -⟩ | ⟨heq, -⟩ | ⟨heq, -⟩ |
      ⟨heq, -⟩ | ⟨heq, -⟩ | ⟨heq, -⟩ | ⟨heq, -, -, -, -, -, -, -, g7, -⟩ | ⟨heq, -⟩ | ⟨heq, -⟩ <;>
    rw [heq] <;>
    first
      | (simp; done)
      | (simp; exact g7)

/-- An event sequence emits at most one abort request, and none at all once
the abort-sent flag is set. -/
theorem abortsEmitted_le (evs : List Event) :
    ∀ s : PutState,
      abortsEmitted s evs ≤
        if s.abort_multipart_upload_sent = true then 0 else 1 := by
  induction evs with
  | nil => intro s; unfold abortsEmitted; split <;> simp
  | cons ev rest ih =>
    intro s
    have hle1 : ∀ s' : PutState, abortsEmitted s' rest ≤ 1 := by
      intro s'
      refine le_trans (ih s') ?_
      split <;> omega
    by_cases hs : s.abort_multipart_upload_sent = true
    · have hs' := abort_sent_mono ev hs
      have h0 : abortsEmitted (applyEvent s ev) rest ≤ 0 := by
        have := ih (applyEvent s ev)
        rwa [if_pos hs'] at this
      rw [if_pos hs]
      cases ev with
      | update c =>
        have hf : emitsAbort s c = false := (emitsAbort_spec s c).2 hs
        simp only [abortsEmitted, hf]
        simpa using h0
      | listPartsFinished error response => simpa [abortsEmitted] using h0
      | createFinished error uploadIdParsed => simpa [abortsEmitted] using h0
      | partFinished pn error etagHeader => simpa [abortsEmitted] using h0
      | completeFinished error => simpa [abortsEmitted] using h0
      | abortFinished error => simpa [abortsEmitted] using h0
    · rw [if_neg hs]
      cases ev with
      | update c =>
        by_cases hab : emitsAbort s c = true
        · obtain ⟨-, hset⟩ := (emitsAbort_spec s c).1 hab
          have hset2 : (applyEvent s (.update c)).abort_multipart_upload_sent = true := hset
          have h0 : abortsEmitted (applyEvent s (.update c)) rest ≤ 0 := by
            have := ih (applyEvent s (.update c))
            rwa [if_pos hset2] at this
          simp only [abortsEmitted, hab]
          simpa using h0
        · have hf : emitsAbort s c = false := by simpa using hab
          simp only [abortsEmitted, hf]
          simpa using hle1 _
      | listPartsFinished error response => simpa [abortsEmitted] using hle1 _
      | createFinished error uploadIdParsed => simpa [abortsEmitted] using hle1 _
      | partFinished pn error etagHeader => simpa [abortsEmitted] using hle1 _
      | completeFinished error => simpa [abortsEmitted] using hle1 _
      | abortFinished error => simpa [abortsEmitted] using hle1 _

end S3Put

namespace S3Put

/-- C1 (amended): at every state reachable from a constructed auto-ranged
put by valid update / finished-request events, the counter chain
`num_parts_completed ≤ num_parts_sent ≤ total_num_parts` holds and
`num_parts_successful + num_parts_failed ≤ num_parts_completed`; the claimed
equality `num_parts_successful + num_parts_failed = num_parts_completed`
holds whenever the meta-request was constructed without a resume token. -/
theorem C1_counter_invariant_amended
    (min_part_size max_num_parts part_size content_length num_parts : Nat)
    (algo : ChecksumAlgorithm) (has_progress : Bool)
    (resume_token : Option TokenJson) (s0 s : PutState)
    (hnew : aws_s3_meta_request_auto_ranged_put_new min_part_size max_num_parts
      part_size content_length num_parts algo has_progress resume_token = .ok s0)
    (hr : Reachable s0 s) :
    (s.num_parts_completed ≤ s.num_parts_sent ∧
     s.num_parts_sent ≤ s.total_num_parts ∧
     s.num_parts_successful + s.num_parts_failed ≤ s.num_parts_completed) ∧
    (resume_token = Option.none →
      s.num_parts_successful + s.num_parts_failed = s.num_parts_completed) := by
  obtain ⟨i1, i2, i3, -, -⟩ :=
    coreInv_reachable _ _ _ _ _ _ _ _ _ _ hnew hr
  refine ⟨⟨i1, i2, i3⟩, fun h => ?_⟩
  subst h
  exact (freshInv_reachable _ _ _ _ _ _ _ _ _ hnew hr).2

theorem C1_counter_invariant_witness :
    (fresh_example.num_parts_completed ≤ fresh_example.num_parts_sent ∧
     fresh_example.num_parts_sent ≤ fresh_example.total_num_parts ∧
     fresh_example.num_parts_successful + fresh_example.num_parts_failed ≤
       fresh_example.num_parts_completed) ∧
    (Option.none = (Option.none : Option TokenJson) →
      fresh_example.num_parts_successful + fresh_example.num_parts_failed =
        fresh_example.num_parts_completed) :=
  C1_counter_invariant_amended 5 10000 8 20 3 .none false Option.none
    fresh_example fresh_example rfl Reachable.refl

/-- C1 counterexample: a resumed upload whose single previously uploaded
part is reported by the final ListParts page reaches a state with
`num_parts_completed = 1` but `num_parts_successful + num_parts_failed = 0`:
the sweep counts resumed parts as completed without classifying them. -/
theorem C1_counter_invariant_counterexample :
    aws_s3_meta_request_auto_ranged_put_new 5 10000 8 8 1 .crc32 false
      (some resume_example_token) = .ok resume_example_s0 ∧
    Reachable resume_example_s0 resume_example_after_sweep ∧
    resume_example_after_sweep.num_parts_successful +
        resume_example_after_sweep.num_parts_failed ≠
      resume_example_after_sweep.num_parts_completed := by
  refine ⟨by rfl, ?_, by decide⟩
  show Reachable resume_example_s0
    (applyEvent (applyEvent resume_example_s0 (.update false))
      (.listPartsFinished .success (some (resume_example_page, false))))
  exact Reachable.step (Reachable.step Reachable.refl (by decide)) (by decide)

/-- C3: when a finish result is already set, `update` emits a request only
in the abort exit — exactly when create-multipart-upload was sent and
completed, no part is in flight, no complete-multipart-upload is in flight,
the finish error is neither PAUSED nor RESUME_FAILED, complete-multipart-
upload did not already succeed, the abort was not yet sent and the upload id
is non-null — and that request is an ABORT_MULTIPART_UPLOAD carrying the
ALWAYS_SEND flag; moreover any valid event sequence from a freshly
constructed meta-request emits at most one abort request. -/
theorem C3_abort_branch :
    (∀ (s : PutState) (c : Bool) (e : ErrorCode) (r : Request),
      s.finish_result = some e →
      ((s_s3_auto_ranged_put_update s c).out_request = some r ↔
        (s.create_multipart_upload_sent = true ∧
         s.create_multipart_upload_completed = true ∧
         ¬s.num_parts_completed < s.num_parts_sent ∧
         ¬(s.complete_multipart_upload_sent = true ∧
           s.complete_multipart_upload_completed = false) ∧
         e ≠ .paused ∧ e ≠ .resumeFailed ∧
         ¬(s.complete_multipart_upload_completed = true ∧
           s.complete_multipart_upload_error_code = .success) ∧
         s.abort_multipart_upload_sent = false ∧
         s.upload_id ≠ Option.none ∧
         r = { tag := .abortMultipartUpload, part_number := 0,
               record_response_headers := true, always_send := true }))) ∧
    (∀ (min_part_size max_num_parts part_size content_length num_parts : Nat)
       (algo : ChecksumAlgorithm) (has_progress : Bool)
       (resume_token : Option TokenJson) (s0 : PutState) (evs : List Event),
      aws_s3_meta_request_auto_ranged_put_new min_part_size max_num_parts
        part_size content_length num_parts algo has_progress resume_token =
        .ok s0 →
      validTrace s0 evs = true →
      abortsEmitted s0 evs ≤ 1) := by
  constructor
  · intro s c e r hf
    have hne : ¬s.finish_result = Option.none := by simp [hf]
    rcases update_cases s c with
        ⟨heq, h0, -⟩ | ⟨heq, h0, -⟩ | ⟨heq, h0, -⟩ | ⟨heq, h0, -⟩ | ⟨heq, h0, -⟩ |
        ⟨heq, h0, -⟩ | ⟨heq, h0, -⟩ | ⟨heq, h0, -⟩ | ⟨heq, h0, -⟩ | ⟨heq, h0⟩ |
        ⟨heq, -, g1⟩ | ⟨heq, -, -, g2⟩ | ⟨heq, -, -, -, g3⟩ | ⟨heq, -, g4⟩ |
        ⟨heq, g5⟩ | ⟨heq, -, g6⟩ | ⟨heq, -, g7, g8⟩ |
        ⟨heq, -, g1, g2, g3, g4, g5, g6, g7, g8⟩ | ⟨heq, -, g7, g9⟩ | ⟨heq, -, g7, g9⟩
    · exact absurd h0 hne
    · exact absurd h0 hne
    · exact absurd h0 hne
    · exact absurd h0 hne
    · exact absurd h0 hne
    · exact absurd h0 hne
    · exact absurd h0 hne
    · exact absurd h0 hne
    · exact absurd h0 hne
    · exact absurd h0 hne
    · rw [heq]; simp [g1]
    · rw [heq]; simp [g2]
    · rw [heq]; simp [g3]
    · rw [heq]
      simp
      intro hc1 hc2 hc3 hc4
      rw [g4.2] at hc4
      exact absurd (hc4 g4.1) (by simp)
    · rw [heq]
      rw [hf] at g5
      simp
      rcases g5 with g5 | g5 <;> injection g5 with g5 <;> subst g5 <;> simp
    · rw [heq]
      simp
      intro hc1 hc2 hc3 hc4 hc5 hc6 hc7
      exact absurd g6.2 (hc7 g6.1)
    · rw [heq]; simp [g8]
    · rw [heq]
      rw [hf] at g5
      constructor
      · intro hsome
        injection hsome with hsome
        refine ⟨g1, g2, g3, g4, ?_, ?_, g6, g7, g8, hsome.symm⟩
      -- e ≠ paused, e ≠ resumeFailed from g5
        · intro hcon; subst hcon; exact g5 (Or.inl rfl)
        · intro hcon; subst hcon; exact g5 (Or.inr rfl)
      · rintro ⟨-, -, -, -, -, -, -, -, -, rfl⟩
        rfl
    · rw [heq]
      simp [g7]
    · rw [heq]
      simp [g7]
  · intro minp maxp psz cl n algo pcb resume_token s0 evs hnew hvt
    have h0 : s0.abort_multipart_upload_sent = false := by
      rcases resume_token with _ | t
      · rw [new_fresh_inv _ _ _ _ _ _ _ _ hnew]
        simp [initBase]
      · obtain ⟨uid, psz2, k, h⟩ := new_resume_inv _ _ _ _ _ _ _ _ _ hnew
        rw [h]
        simp [initBase]
    have hb := abortsEmitted_le evs s0
    rw [if_neg (by simp [h0])] at hb
    exact hb

/-- C6: on a resumed upload, when the final ListParts page finishes
successfully, `num_parts_sent` and `num_parts_completed` (both zero since
`s_load_persistable_state`) each become the number of populated ETag slots,
`list_parts_completed` becomes true, and the create-multipart-upload flags
were already set at load time. -/
theorem C6_resume_sweep
    (min_part_size max_num_parts part_size content_length num_parts : Nat)
    (algo : ChecksumAlgorithm) (has_progress : Bool) (t : TokenJson)
    (s0 s : PutState) (page : List PartInfo)
    (hnew : aws_s3_meta_request_auto_ranged_put_new min_part_size max_num_parts
      part_size content_length num_parts algo has_progress (some t) = .ok s0)
    (hr : Reachable s0 s)
    (hv : validEvent s (.listPartsFinished .success (some (page, false))) = true) :
    (s_finished_list_parts s .success (some (page, false))).num_parts_sent =
      countPopulated
        (s_finished_list_parts s .success (some (page, false))).etag_list ∧
    (s_finished_list_parts s .success (some (page, false))).num_parts_completed =
      countPopulated
        (s_finished_list_parts s .success (some (page, false))).etag_list ∧
    (s_finished_list_parts s .success (some (page, false))).list_parts_completed =
      true ∧
    s0.num_parts_sent = 0 ∧ s0.num_parts_completed = 0 ∧
    s0.create_multipart_upload_sent = true ∧
    s0.create_multipart_upload_completed = true := by
  have hlpc : s.list_parts_completed = false := by
    simp [validEvent] at hv
    exact hv.2
  obtain ⟨-, -, -, -, i5⟩ := coreInv_reachable _ _ _ _ _ _ _ _ _ _ hnew hr
  obtain ⟨z1, z2, -, -⟩ := i5 hlpc
  obtain ⟨uid, psz, k, h0⟩ := new_resume_inv _ _ _ _ _ _ _ _ _ hnew
  refine ⟨?_, ?_, ?_, ?_, ?_, ?_, ?_⟩
  · unfold s_finished_list_parts
    simp [z1]
  · unfold s_finished_list_parts
    simp [z2]
  · unfold s_finished_list_parts
    simp
  · rw [h0]
  · rw [h0]
  · rw [h0]
  · rw [h0]

theorem C6_resume_sweep_witness :
    (s_finished_list_parts (applyEvent resume_example_s0 (.update false))
        .success (some (resume_example_page, false))).num_parts_sent =
      countPopulated
        (s_finished_list_parts (applyEvent resume_example_s0 (.update false))
          .success (some (resume_example_page, false))).etag_list ∧
    (s_finished_list_parts (applyEvent resume_example_s0 (.update false))
        .success (some (resume_example_page, false))).num_parts_completed =
      countPopulated
        (s_finished_list_parts (applyEvent resume_example_s0 (.update false))
          .success (some (resume_example_page, false))).etag_list ∧
    (s_finished_list_parts (applyEvent resume_example_s0 (.update false))
        .success (some (resume_example_page, false))).list_parts_completed =
      true ∧
    resume_example_s0.num_parts_sent = 0 ∧
    resume_example_s0.num_parts_completed = 0 ∧
    resume_example_s0.create_multipart_upload_sent = true ∧
    resume_example_s0.create_multipart_upload_completed = true :=
  C6_resume_sweep 5 10000 8 8 1 .crc32 false resume_example_token
    resume_example_s0 (applyEvent resume_example_s0 (.update false))
    resume_example_page (by rfl)
    (Reachable.step Reachable.refl (by decide)) (by decide)

end S3Put

namespace S3Put

/-- Unfolding step of `bytesSkipped`. -/
theorem bytesSkipped_succ (part_size total_num_parts content_length a k : Nat) :
    bytesSkipped part_size total_num_parts content_length a (k + 1) =
      s_compute_request_body_size part_size total_num_parts content_length
          (a + 1) +
        bytesSkipped part_size total_num_parts content_length (a + 1) k := rfl

/-- Once the first part is consumed, `partOk` relative to the advanced
stream agrees with `partOk` relative to the original stream. -/
theorem partOk_shift (part_size total_num_parts content_length : Nat)
    (algo : ChecksumAlgorithm) (checks : List (List Nat))
    (hash : List Nat → List Nat) (stream : List Nat) (a i : Nat)
    (h : a + 1 ≤ i) :
    partOk part_size total_num_parts content_length algo checks hash
      (stream.drop (s_compute_request_body_size part_size total_num_parts
        content_length (a + 1))) (a + 1) i ↔
    partOk part_size total_num_parts content_length algo checks hash
      stream a i := by
  unfold partOk
  rw [List.drop_drop]
  have h1 : i - a = (i - (a + 1)) + 1 := by omega
  rw [h1, bytesSkipped_succ]

/-- The loop of `s_skip_parts_from_stream`: it consumes exactly the skipped
parts' bytes and succeeds iff every skipped part passes its checksum
comparison; the only failure it reports is
`RESUMED_PART_CHECKSUM_MISMATCH`. -/
theorem skip_parts_loop_spec (part_size total_num_parts content_length : Nat)
    (algo : ChecksumAlgorithm) (checks : List (List Nat))
    (hash : List Nat → List Nat) :
    ∀ (fuel : Nat) (stream : List Nat) (a : Nat),
      (skip_parts_loop part_size total_num_parts content_length algo checks
          hash fuel stream a =
          .ok (stream.drop
            (bytesSkipped part_size total_num_parts content_length a fuel)) ↔
        ∀ i, a ≤ i → i < a + fuel →
          partOk part_size total_num_parts content_length algo checks hash
            stream a i) ∧
      ((∃ i, a ≤ i ∧ i < a + fuel ∧
          ¬partOk part_size total_num_parts content_length algo checks hash
            stream a i) →
        skip_parts_loop part_size total_num_parts content_length algo checks
          hash fuel stream a = .error .resumedPartChecksumMismatch) := by
  intro fuel
  induction fuel with
  | zero =>
    intro stream a
    constructor
    · unfold skip_parts_loop bytesSkipped
      simp
      intro i h1 h2
      omega
    · rintro ⟨i, h1, h2, -⟩
      omega
  | succ n ih =>
    intro stream a
    have hsize : s_compute_request_body_size part_size total_num_parts
        content_length (a + 1) =
        s_compute_request_body_size part_size total_num_parts content_length
          (a + 1) := rfl
    have hshift := fun i h => partOk_shift part_size total_num_parts
      content_length algo checks hash stream a i h
    have hofirst : ∀ i, a ≤ i → i < a + 1 → i = a := by omega
    obtain ⟨ihiff, iherr⟩ := ih
      (stream.drop (s_compute_request_body_size part_size total_num_parts
        content_length (a + 1))) (a + 1)
    constructor
    · rw [show skip_parts_loop part_size total_num_parts content_length algo
          checks hash (n + 1) stream a =
          (if algo ≠ .none ∧ checks.getD a [] ≠ [] then
            (if hash (stream.take (s_compute_request_body_size part_size
                total_num_parts content_length (a + 1))) = checks.getD a []
             then
              skip_parts_loop part_size total_num_parts content_length algo
                checks hash n
                (stream.drop (s_compute_request_body_size part_size
                  total_num_parts content_length (a + 1))) (a + 1)
             else .error .resumedPartChecksumMismatch)
           else
            skip_parts_loop part_size total_num_parts content_length algo
              checks hash n
              (stream.drop (s_compute_request_body_size part_size
                total_num_parts content_length (a + 1))) (a + 1))
          from rfl]
      rw [bytesSkipped_succ, ← List.drop_drop]
      by_cases hg : algo ≠ .none ∧ checks.getD a [] ≠ []
      · rw [if_pos hg]
        by_cases hh : hash (stream.take (s_compute_request_body_size part_size
            total_num_parts content_length (a + 1))) = checks.getD a []
        · rw [if_pos hh]
          rw [ihiff]
          constructor
          · intro hall i h1 h2
            rcases Nat.lt_or_ge i (a + 1) with hlt | hge
            · have : i = a := by omega
              subst this
              unfold partOk
              right; right
              have : i - i = 0 := by omega
              rw [this]
              unfold bytesSkipped
              rw [List.drop_zero]
              exact hh
            · rw [← hshift i hge]
              exact hall i hge (by omega)
          · intro hall i h1 h2
            rw [hshift i h1]
            exact hall i (by omega) (by omega)
        · rw [if_neg hh]
          constructor
          · intro hcon
            exact absurd hcon (by simp)
          · intro hall
            have := hall a (by omega) (by omega)
            unfold partOk at this
            rcases this with hc | hc | hc
            · exact absurd hc (by simpa using hg.1)
            · exact absurd hc hg.2
            · refine absurd ?_ hh
              have h00 : a - a = 0 := by omega
              rw [h00] at hc
              unfold bytesSkipped at hc
              rw [List.drop_zero] at hc
              exact hc
      · rw [if_neg hg]
        rw [ihiff]
        have hga : partOk part_size total_num_parts content_length algo checks
            hash stream a a := by
          unfold partOk
          rcases (Decidable.not_and_iff_or_not ..).mp hg with hc | hc
          · left; simpa using hc
          · right; left; simpa using hc
        constructor
        · intro hall i h1 h2
          rcases Nat.lt_or_ge i (a + 1) with hlt | hge
          · have : i = a := by omega
            subst this
            exact hga
          · rw [← hshift i hge]
            exact hall i hge (by omega)
        · intro hall i h1 h2
          rw [hshift i h1]
          exact hall i (by omega) (by omega)
    · rintro ⟨i, h1, h2, hbad⟩
      rw [show skip_parts_loop part_size total_num_parts content_length algo
          checks hash (n + 1) stream a =
          (if algo ≠ .none ∧ checks.getD a [] ≠ [] then
            (if hash (stream.take (s_compute_request_body_size part_size
                total_num_parts content_length (a + 1))) = checks.getD a []
             then
              skip_parts_loop part_size total_num_parts content_length algo
                checks hash n
                (stream.drop (s_compute_request_body_size part_size
                  total_num_parts content_length (a + 1))) (a + 1)
             else .error .resumedPartChecksumMismatch)
           else
            skip_parts_loop part_size total_num_parts content_length algo
              checks hash n
              (stream.drop (s_compute_request_body_size part_size
                total_num_parts content_length (a + 1))) (a + 1))
          from rfl]
      by_cases hg : algo ≠ .none ∧ checks.getD a [] ≠ []
      · rw [if_pos hg]
        by_cases hh : hash (stream.take (s_compute_request_body_size part_size
            total_num_parts content_length (a + 1))) = checks.getD a []
        · rw [if_pos hh]
          have hia : i ≠ a := by
            intro hcon
            subst hcon
            refine hbad ?_
            unfold partOk
            right; right
            have h00 : i - i = 0 := by omega
            rw [h00]
            unfold bytesSkipped
            rw [List.drop_zero]
            exact hh
          refine iherr ⟨i, by omega, by omega, ?_⟩
          rw [hshift i (by omega)]
          exact hbad
        · rw [if_neg hh]
      · rw [if_neg hg]
        have hga : partOk part_size total_num_parts content_length algo checks
            hash stream a a := by
          unfold partOk
          rcases (Decidable.not_and_iff_or_not ..).mp hg with hc | hc
          · left; simpa using hc
          · right; left; simpa using hc
        have hia : i ≠ a := fun hcon => hbad (hcon ▸ hga)
        refine iherr ⟨i, by omega, by omega, ?_⟩
        rw [hshift i (by omega)]
        exact hbad

end S3Put

namespace S3Put

/-- C5: skipping previously uploaded parts succeeds (consuming exactly the
skipped parts' bytes) iff every skipped part with a configured algorithm and
a non-empty stored checksum recomputes to the stored value; any mismatch
fails with RESUMED_PART_CHECKSUM_MISMATCH; with algorithm NONE no comparison
happens and skipping succeeds. -/
theorem C5_skip_checksum_verification
    (part_size total_num_parts content_length : Nat) (algo : ChecksumAlgorithm)
    (checks : List (List Nat)) (hash : List Nat → List Nat) (stream : List Nat)
    (num_parts_read skip_until : Nat) (hab : num_parts_read ≤ skip_until) :
    (s_skip_parts_from_stream part_size total_num_parts content_length algo
        checks hash stream num_parts_read skip_until =
        .ok (stream.drop (bytesSkipped part_size total_num_parts content_length
          num_parts_read (skip_until - num_parts_read))) ↔
      ∀ i, num_parts_read ≤ i → i < skip_until →
        partOk part_size total_num_parts content_length algo checks hash
          stream num_parts_read i) ∧
    ((¬∀ i, num_parts_read ≤ i → i < skip_until →
        partOk part_size total_num_parts content_length algo checks hash
          stream num_parts_read i) →
      s_skip_parts_from_stream part_size total_num_parts content_length algo
        checks hash stream num_parts_read skip_until =
        .error .resumedPartChecksumMismatch) ∧
    (algo = .none →
      s_skip_parts_from_stream part_size total_num_parts content_length algo
        checks hash stream num_parts_read skip_until =
        .ok (stream.drop (bytesSkipped part_size total_num_parts content_length
          num_parts_read (skip_until - num_parts_read)))) := by
  obtain ⟨hiff, herr⟩ := skip_parts_loop_spec part_size total_num_parts
    content_length algo checks hash (skip_until - num_parts_read) stream
    num_parts_read
  refine ⟨?_, ?_, ?_⟩
  · unfold s_skip_parts_from_stream
    rw [hiff]
    constructor
    · intro h i h1 h2
      exact h i h1 (by omega)
    · intro h i h1 h2
      exact h i h1 (by omega)
  · intro hbad
    unfold s_skip_parts_from_stream
    refine herr ?_
    push_neg at hbad
    obtain ⟨i, h1, h2, h3⟩ := hbad
    exact ⟨i, h1, by omega, h3⟩
  · intro hnone
    unfold s_skip_parts_from_stream
    rw [hiff]
    intro i h1 h2
    exact Or.inl hnone

theorem C5_skip_checksum_witness :
    (s_skip_parts_from_stream 4 2 7 .crc32 [[10], []]
        (fun l => [l.foldl Nat.add 0]) [1, 2, 3, 4, 5, 6, 7] 0 2 =
        .ok (([1, 2, 3, 4, 5, 6, 7] : List Nat).drop (bytesSkipped 4 2 7 0 (2 - 0))) ↔
      ∀ i, 0 ≤ i → i < 2 →
        partOk 4 2 7 .crc32 [[10], []] (fun l => [l.foldl Nat.add 0])
          [1, 2, 3, 4, 5, 6, 7] 0 i) ∧
    ((¬∀ i, 0 ≤ i → i < 2 →
        partOk 4 2 7 .crc32 [[10], []] (fun l => [l.foldl Nat.add 0])
          [1, 2, 3, 4, 5, 6, 7] 0 i) →
      s_skip_parts_from_stream 4 2 7 .crc32 [[10], []]
        (fun l => [l.foldl Nat.add 0]) [1, 2, 3, 4, 5, 6, 7] 0 2 =
        .error .resumedPartChecksumMismatch) ∧
    (ChecksumAlgorithm.crc32 = .none →
      s_skip_parts_from_stream 4 2 7 .crc32 [[10], []]
        (fun l => [l.foldl Nat.add 0]) [1, 2, 3, 4, 5, 6, 7] 0 2 =
        .ok (([1, 2, 3, 4, 5, 6, 7] : List Nat).drop (bytesSkipped 4 2 7 0 (2 - 0)))) :=
  C5_skip_checksum_verification 4 2 7 .crc32 [[10], []]
    (fun l => [l.foldl Nat.add 0]) [1, 2, 3, 4, 5, 6, 7] 0 2 (by decide)

theorem C2_resume_token_validation_witness :
    (resumeTokenFields resume_example_token = Option.none →
      aws_s3_meta_request_auto_ranged_put_new 5 10000 8 8 1 .crc32 false
        (some resume_example_token) = .error .invalidArgument) ∧
    (∀ ty uid p k,
      resumeTokenFields resume_example_token = some (ty, uid, p, k) →
      ((aws_s3_meta_request_auto_ranged_put_new 5 10000 8 8 1 .crc32 false
          (some resume_example_token) = .error .invalidArgument) ↔
        ¬(ty = "AWS_S3_META_REQUEST_TYPE_PUT_OBJECT" ∧ 5 ≤ p ∧ k ≤ 10000 ∧
          8 ⌈/⌉ p = k)) ∧
      ((ty = "AWS_S3_META_REQUEST_TYPE_PUT_OBJECT" ∧ 5 ≤ p ∧ k ≤ 10000 ∧
          8 ⌈/⌉ p = k) →
        ∃ s0, aws_s3_meta_request_auto_ranged_put_new 5 10000 8 8 1 .crc32
            false (some resume_example_token) = .ok s0 ∧
          s0.upload_id = some uid ∧ s0.part_size = p ∧
          s0.total_num_parts = k)) :=
  C2_resume_token_validation 5 10000 8 8 1 .crc32 false resume_example_token
    (by decide)

end S3Put
